import Mathlib

/-!
# Redis test fixture (`redis.go`): a shallow embedding

The Go file implements the `redisService` fixture of the `test` package:
`Start`, `Stop`, `StartDocker`, `StopDocker` and the three service options
`RedisMemory`, `RedisPort`, `RedisAuth`.

Modelling conventions.

* Go `int` is `Int`, Go `string` is `String`, a Go `error` is identified with
  its message (`Option Error`, `none` being the `nil` error).
* The package-level helpers `CheckExecutable`, `BookPorts`, `Exec`,
  `CheckListening`, `StartContainer`, `RemoveContainer` and the library calls
  `ioutil.TempDir`, `filepath.Join`, `time.Sleep` are not part of `redis.go`;
  they are parameters of the model.  Each effectful one is a function of an
  abstract world state `σ` returning its Go results together with the next
  world state, so that successive calls may answer differently.
* Every call to an effectful collaborator is written to a trace, with its
  arguments and its results, in program order.
* `ports[0]` on an empty slice is a run-time panic; it is a separate outcome.
-/

namespace RedisTest

/-- A Go `error` value, identified with its message. -/
abbrev Error := String

/-- The constant `redisChkTimes`. -/
def redisChkTimes : Nat := 10

/-- The constant `redisChkDelay`, `1 * time.Second`, in nanoseconds. -/
def redisChkDelay : Nat := 1 * 1000000000

/-- One element of a Go `[]interface{}` argument list: `redis.go` puts strings
and one `int` (the port) into it. -/
inductive Arg where
  | str (s : String)
  | int (n : Int)
  deriving DecidableEq, Repr

/-- A call made to a process-mode collaborator, with the values it returned. -/
inductive Event where
  | checkExecutable (names : List String) (err : Option Error)
  | bookPorts (n : Int) (ports : List Int) (err : Option Error)
  | tempDir (dir : String) (pattern : String) (name : String) (err : Option Error)
  | exec (workDir : String) (cmd : String) (args : List Arg) (err : Option Error)
  | sleep (d : Nat)
  | checkListening (port : Int) (ok : Bool)
  deriving DecidableEq, Repr

/-- The process-mode collaborators of `redis.go`, over a world state `σ`.
`Exec` is given the working directory, the command and the argument list; the
`stdin` and `stdout` arguments, which `redis.go` always passes as `nil`, are
left out. -/
structure Collab (σ : Type) where
  CheckExecutable : List String → σ → Option Error × σ
  BookPorts : Int → σ → (List Int × Option Error) × σ
  TempDir : String → String → σ → (String × Option Error) × σ
  Join : String → String → String
  Exec : String → String → List Arg → σ → Option Error × σ
  Sleep : Nat → σ → σ
  CheckListening : Int → σ → Bool × σ

/-- The struct `redisService`.  `container` is the pointer field
`*docker.Container`: `none` is the nil pointer. -/
structure redisService (Container : Type) where
  port : Int
  workDir : String
  auth : String
  maxMemory : String
  container : Option Container

/-- The instance built by the constructor registered in `init`: every field
not listed there has its zero value. -/
def newRedisService (Container : Type) : redisService Container :=
  { port := 6379, workDir := "", auth := "", maxMemory := "64mb", container := none }

/-- How a Go call ends: it returns its results, or it panics. -/
inductive Outcome (α : Type) where
  | ret (a : α)
  | panic (msg : String)
  deriving DecidableEq, Repr

/-- What a method call on a `*redisService` leaves behind: the outcome, the
fields of the receiver, the world, and the collaborator calls made. -/
structure Run (σ Container α : Type) where
  out : Outcome α
  svc : redisService Container
  world : σ
  trace : List Event

/-- The verb `%d` of `fmt` on an `int`: the decimal rendering. -/
def fmtD (n : Int) : String := toString n

/-- The readiness loop of `Start`,
`for i := 0; i < redisChkTimes; i++ { time.Sleep(..); if CheckListening(s.port) { return .. } }`,
with `n` the number of iterations still to run.  The result is `true` when a
probe succeeded (the loop body returned) and `false` when the loop ran out. -/
def pollLoop {σ : Type} (C : Collab σ) (port : Int) : Nat → σ → Bool × σ × List Event
  | 0, w => (false, w, [])
  | n + 1, w =>
    let w1 := C.Sleep redisChkDelay w
    match C.CheckListening port w1 with
    | (true, w2) => (true, w2, [Event.sleep redisChkDelay, Event.checkListening port true])
    | (false, w2) =>
      match pollLoop C port n w2 with
      | (r, w3, tr) =>
        (r, w3, Event.sleep redisChkDelay :: Event.checkListening port false :: tr)

/-- The argument list `cmds` that `Start` hands to `Exec`. -/
def startCmds {Container : Type} (join : String → String → String)
    (s : redisService Container) : List Arg :=
  let pidFile := join s.workDir "redis.pid"
  let logFile := join s.workDir "redis.log"
  let cmds := [Arg.str "--daemonize", Arg.str "yes",
    Arg.str "--port", Arg.int s.port,
    Arg.str "--pidfile", Arg.str pidFile,
    Arg.str "--logfile", Arg.str logFile,
    Arg.str "--dir", Arg.str s.workDir,
    Arg.str "--maxmemory", Arg.str s.maxMemory]
  if s.auth ≠ "" then cmds ++ [Arg.str "--requirepass", Arg.str s.auth] else cmds

/-- The method `(*redisService).Start`. -/
def Start {σ Container : Type} (C : Collab σ) (s : redisService Container) (w : σ) :
    Run σ Container (String × Option Error) :=
  -- perform default check
  match C.CheckExecutable ["redis-server", "redis-cli"] w with
  | (some err, w1) =>
    ⟨Outcome.ret ("", some err), s, w1,
      [Event.checkExecutable ["redis-server", "redis-cli"] (some err)]⟩
  | (none, w1) =>
    let t1 := [Event.checkExecutable ["redis-server", "redis-cli"] none]
    -- booking 1 ports
    match C.BookPorts 1 w1 with
    | ((ports, some err), w2) =>
      ⟨Outcome.ret ("", some ("fail to book ports, err:" ++ err)), s, w2,
        t1 ++ [Event.bookPorts 1 ports (some err)]⟩
    | ((ports, none), w2) =>
      let t2 := t1 ++ [Event.bookPorts 1 ports none]
      match ports with
      | [] => ⟨Outcome.panic "index out of range", s, w2, t2⟩
      | p :: _ =>
        let s1 := { s with port := p }
        -- prepare tmp dir
        match C.TempDir "" "redis-test" w2 with
        | ((d, terr), w3) =>
          let s2 := { s1 with workDir := d }
          let t3 := t2 ++ [Event.tempDir "" "redis-test" d terr]
          match terr with
          | some err =>
            ⟨Outcome.ret ("", some ("fail to prepare tmp dir, err:" ++ err)), s2, w3, t3⟩
          | none =>
            let cmds := startCmds C.Join s2
            match C.Exec s2.workDir "redis-server" cmds w3 with
            | (some err, w4) =>
              ⟨Outcome.ret ("", some ("fail to start redis server, err:" ++ err)), s2, w4,
                t3 ++ [Event.exec s2.workDir "redis-server" cmds (some err)]⟩
            | (none, w4) =>
              let t4 := t3 ++ [Event.exec s2.workDir "redis-server" cmds none]
              match pollLoop C s2.port redisChkTimes w4 with
              | (true, w5, tr) =>
                ⟨Outcome.ret ("localhost:" ++ fmtD s2.port, none), s2, w5, t4 ++ tr⟩
              | (false, w5, tr) =>
                ⟨Outcome.ret ("", some "fail to start redis"), s2, w5, t4 ++ tr⟩

/-- The method `(*redisService).Stop`. -/
def Stop {σ Container : Type} (C : Collab σ) (s : redisService Container) (w : σ) :
    Run σ Container (Option Error) :=
  let args := [Arg.str "-h", Arg.str "localhost", Arg.str "-p", Arg.int s.port,
    Arg.str "shutdown"]
  match C.Exec s.workDir "redis-cli" args w with
  | (err, w1) => ⟨Outcome.ret err, s, w1, [Event.exec s.workDir "redis-cli" args err]⟩

/-- An option value handed to `StartContainer`.  The constructors `SetImage`,
`SetExposedPorts` and `SetCommand` of the package are not in `redis.go`; each
is kept as an uninterpreted constructor holding its argument. -/
inductive ContainerOption where
  | SetImage (image : String)
  | SetExposedPorts (ports : List String)
  | SetCommand (cmd : List String)
  deriving DecidableEq, Repr

/-- A call made to a container-mode collaborator, with the values it returned. -/
inductive DockerCall (Client Container : Type) where
  | startContainer (cl : Client) (opts : List ContainerOption)
      (c : Option Container) (ipport : String) (err : Option Error)
  | removeContainer (cl : Client) (c : Option Container) (err : Option Error)
  deriving DecidableEq, Repr

/-- The container-mode collaborators of `redis.go`, over a world state `σ`.
`Client` stands for `*docker.Client`; a `*docker.Container` is an
`Option Container`. -/
structure DockerBackend (σ Client Container : Type) where
  StartContainer : Client → List ContainerOption → σ →
    (Option Container × String × Option Error) × σ
  RemoveContainer : Client → Option Container → σ → Option Error × σ

/-- What a container-mode method call leaves behind. -/
structure DockerRun (σ Client Container α : Type) where
  out : α
  svc : redisService Container
  world : σ
  calls : List (DockerCall Client Container)

/-- The method `(*redisService).StartDocker`: its results are `(ipport, err)`. -/
def StartDocker {σ Client Container : Type} (B : DockerBackend σ Client Container)
    (s : redisService Container) (cl : Client) (w : σ) :
    DockerRun σ Client Container (String × Option Error) :=
  let Cmds := ["redis-server",
    "--port", fmtD s.port,
    "--maxmemory", s.maxMemory,
    "--maxmemory-policy", "allkeys-lru"]
  let Cmds := if s.auth ≠ "" then Cmds ++ ["--requirepass", s.auth] else Cmds
  let opts := [ContainerOption.SetImage "redis:3-alpine",
    ContainerOption.SetExposedPorts [fmtD s.port ++ "/tcp"],
    ContainerOption.SetCommand Cmds]
  match B.StartContainer cl opts w with
  | ((c, ipport, err), w1) =>
    ⟨(ipport, err), { s with container := c }, w1,
      [DockerCall.startContainer cl opts c ipport err]⟩

/-- The method `(*redisService).StopDocker`. -/
def StopDocker {σ Client Container : Type} (B : DockerBackend σ Client Container)
    (s : redisService Container) (cl : Client) (w : σ) :
    DockerRun σ Client Container (Option Error) :=
  match B.RemoveContainer cl s.container w with
  | (err, w1) => ⟨err, s, w1, [DockerCall.removeContainer cl s.container err]⟩

/-- A value of the interface type `Service`, by its dynamic type: the nil
interface, a non-nil `*redisService` (with the fields of the struct it points
to), a nil `*redisService`, or a value of any other implementation, whose
state is an `Other`. -/
inductive Service (Container Other : Type) where
  | nil
  | redis (rs : redisService Container)
  | redisNil
  | other (o : Other)

/-- Whether the dynamic type of a `Service` value is `*redisService`, that is
whether the type assertion `s.(*redisService)` answers `ok = true`. -/
def Service.isRedisService {Container Other : Type} : Service Container Other → Bool
  | Service.redis _ => true
  | Service.redisNil => true
  | _ => false

/-- What applying a `ServiceOption` leaves behind: the returned error (or a
panic) and the service value afterwards. -/
structure OptionRun (Container Other : Type) where
  out : Outcome (Option Error)
  svc : Service Container Other

/-- The type `ServiceOption`, `func(s Service) error`. -/
abbrev ServiceOption (Container Other : Type) :=
  Service Container Other → OptionRun Container Other

/-- The option `RedisMemory`.  `fmtV` is the rendering of a service value by
the verb `%v` of `fmt`, taken as a pure function. -/
def RedisMemory {Container Other : Type} (fmtV : Service Container Other → String)
    (maxMem : String) : ServiceOption Container Other := fun s =>
  match s with
  | Service.redis rs => ⟨Outcome.ret none, Service.redis { rs with maxMemory := maxMem }⟩
  | Service.redisNil => ⟨Outcome.panic "nil pointer dereference", Service.redisNil⟩
  | s => ⟨Outcome.ret (some ("can't set redis auth with service " ++ fmtV s)), s⟩

/-- The option `RedisPort`. -/
def RedisPort {Container Other : Type} (fmtV : Service Container Other → String)
    (port : Int) : ServiceOption Container Other := fun s =>
  match s with
  | Service.redis rs => ⟨Outcome.ret none, Service.redis { rs with port := port }⟩
  | Service.redisNil => ⟨Outcome.panic "nil pointer dereference", Service.redisNil⟩
  | s => ⟨Outcome.ret (some ("can't set redis port with service " ++ fmtV s)), s⟩

/-- The option `RedisAuth`. -/
def RedisAuth {Container Other : Type} (fmtV : Service Container Other → String)
    (password : String) : ServiceOption Container Other := fun s =>
  match s with
  | Service.redis rs => ⟨Outcome.ret none, Service.redis { rs with auth := password }⟩
  | Service.redisNil => ⟨Outcome.panic "nil pointer dereference", Service.redisNil⟩
  | s => ⟨Outcome.ret (some ("can't set redis auth with service " ++ fmtV s)), s⟩

/-! ## Reading a trace -/

/-- The readiness probes of a trace, in order: the port probed and the answer. -/
def probes : List Event → List (Int × Bool)
  | [] => []
  | Event.checkListening p b :: t => (p, b) :: probes t
  | _ :: t => probes t

/-- Whether an event is a call to `CheckExecutable`. -/
def Event.isCheckExecutable : Event → Bool
  | Event.checkExecutable _ _ => true
  | _ => false

/-- Whether an event is a call to `BookPorts`. -/
def Event.isBookPorts : Event → Bool
  | Event.bookPorts _ _ _ => true
  | _ => false

/-- Whether an event is a call to `ioutil.TempDir`. -/
def Event.isTempDir : Event → Bool
  | Event.tempDir _ _ _ _ => true
  | _ => false

/-- Whether an event is a call to `Exec`. -/
def Event.isExec : Event → Bool
  | Event.exec _ _ _ _ => true
  | _ => false

/-- Whether an event belongs to the readiness loop: a sleep or a probe. -/
def Event.isPoll : Event → Bool
  | Event.sleep _ => true
  | Event.checkListening _ _ => true
  | _ => false

/-! ## The collaborators' answers along the readiness loop -/

/-- The world after `k` rounds of the readiness loop on `port` that started in
world `v`: each round is one `time.Sleep(redisChkDelay)` followed by one
`CheckListening(port)`. -/
def probeWorld {σ : Type} (C : Collab σ) (port : Int) : Nat → σ → σ
  | 0, v => v
  | k + 1, v => probeWorld C port k (C.CheckListening port (C.Sleep redisChkDelay v)).2

/-- What `CheckListening(port)` answers at round `i` (counted from 0) of a
readiness loop that started in world `v`, all earlier rounds having been made. -/
def probeAnswer {σ : Type} (C : Collab σ) (port : Int) (i : Nat) (v : σ) : Bool :=
  (C.CheckListening port (C.Sleep redisChkDelay (probeWorld C port i v))).1

/-- The calls of `k` rounds in which the probe of `port` answered false. -/
def failedRounds (port : Int) : Nat → List Event
  | 0 => []
  | k + 1 =>
    Event.sleep redisChkDelay :: Event.checkListening port false :: failedRounds port k

/-! ## Scripted collaborators, for concrete runs -/

/-- A script for the process-mode collaborators: the fixed answer of each
one, and the number of the first probe that finds the port listening
(`0` for never). -/
structure Script where
  check : Option Error
  book : List Int × Option Error
  tmp : String × Option Error
  launch : Option Error
  readyAt : Nat

/-- The collaborators that follow a script.  The world is the number of
probes made so far; paths are joined with a slash. -/
def scripted (f : Script) : Collab Nat where
  CheckExecutable := fun _ n => (f.check, n)
  BookPorts := fun _ n => (f.book, n)
  TempDir := fun _ _ n => (f.tmp, n)
  Join := fun a b => a ++ "/" ++ b
  Exec := fun _ _ _ n => (f.launch, n)
  Sleep := fun _ n => n
  CheckListening := fun _ n => (decide (f.readyAt ≠ 0 ∧ f.readyAt ≤ n + 1), n + 1)

/-- A script in which every step succeeds, port `7000` is booked and the
third probe finds it listening. -/
def goodScript : Script :=
  { check := none, book := ([7000, 7001], none), tmp := ("/tmp/redis-test1", none),
    launch := none, readyAt := 3 }

/-- A container backend that starts a container `c` at a fixed address and
whose `RemoveContainer` always answers `removeErr`. -/
def scriptedBackend (c : Nat) (removeErr : Option Error) : DockerBackend Unit Unit Nat where
  StartContainer := fun _ _ w => ((some c, "172.17.0.2:6379", none), w)
  RemoveContainer := fun _ _ w => (removeErr, w)

/-- The rendering of a service value used in concrete runs. -/
def showService : Service Nat String → String
  | Service.nil => "<nil>"
  | Service.redis _ => "&redis"
  | Service.redisNil => "<nil>"
  | Service.other o => o

/-! ## The readiness loop -/

theorem probes_append (a b : List Event) : probes (a ++ b) = probes a ++ probes b := by
  induction a with
  | nil => rfl
  | cons e t ih => cases e <;> simp [probes, ih]

theorem probes_failedRounds (port : Int) (k : Nat) :
    probes (failedRounds port k) = List.replicate k (port, false) := by
  induction k with
  | zero => rfl
  | succ k ih => simp only [failedRounds, probes, List.replicate_succ, ih]

theorem failedRounds_isPoll (port : Int) (k : Nat) :
    ∀ ev ∈ failedRounds port k, ev.isPoll = true := by
  induction k with
  | zero => simp [failedRounds]
  | succ k ih =>
    intro ev hev
    simp only [failedRounds, List.mem_cons] at hev
    rcases hev with rfl | rfl | hev
    · rfl
    · rfl
    · exact ih ev hev

theorem probeAnswer_succ {σ : Type} (C : Collab σ) (port : Int) (i : Nat) (v : σ) :
    probeAnswer C port (i + 1) v
      = probeAnswer C port i (C.CheckListening port (C.Sleep redisChkDelay v)).2 := rfl

/-- The loop when every one of its `n` probes answers false. -/
theorem pollLoop_all_false {σ : Type} (C : Collab σ) (port : Int) (n : Nat) (v : σ)
    (h : ∀ i, i < n → probeAnswer C port i v = false) :
    pollLoop C port n v = (false, probeWorld C port n v, failedRounds port n) := by
  induction n generalizing v with
  | zero => rfl
  | succ n ih =>
    have h0 : (C.CheckListening port (C.Sleep redisChkDelay v)).1 = false := h 0 (by omega)
    have hrest := ih (C.CheckListening port (C.Sleep redisChkDelay v)).2
      (fun i hi => by rw [← probeAnswer_succ]; exact h (i + 1) (by omega))
    unfold pollLoop
    rcases hc : C.CheckListening port (C.Sleep redisChkDelay v) with ⟨b, v1⟩
    rw [hc] at h0 hrest
    simp only at h0 hrest
    subst h0
    simp only [hrest, probeWorld, hc, failedRounds]

/-- The loop when round `k` is the first whose probe answers true. -/
theorem pollLoop_first_true {σ : Type} (C : Collab σ) (port : Int) (n k : Nat) (v : σ)
    (hk : k < n) (h : ∀ i, i < k → probeAnswer C port i v = false)
    (ht : probeAnswer C port k v = true) :
    pollLoop C port n v = (true, probeWorld C port (k + 1) v,
      failedRounds port k
        ++ [Event.sleep redisChkDelay, Event.checkListening port true]) := by
  induction n generalizing v k with
  | zero => omega
  | succ n ih =>
    unfold pollLoop
    rcases hc : C.CheckListening port (C.Sleep redisChkDelay v) with ⟨b, v1⟩
    cases k with
    | zero =>
      have h0 : (C.CheckListening port (C.Sleep redisChkDelay v)).1 = true := ht
      rw [hc] at h0
      simp only at h0
      subst h0
      simp only [probeWorld, hc, failedRounds, List.nil_append]
    | succ k =>
      have h0 : (C.CheckListening port (C.Sleep redisChkDelay v)).1 = false := h 0 (by omega)
      have hrest := ih k (C.CheckListening port (C.Sleep redisChkDelay v)).2 (by omega)
        (fun i hi => by rw [← probeAnswer_succ]; exact h (i + 1) (by omega))
        (by rw [← probeAnswer_succ]; exact ht)
      rw [hc] at h0 hrest
      simp only at h0 hrest
      subst h0
      simp only [hrest, probeWorld, hc, failedRounds, List.cons_append]

/-- Either all of the first `n` probes answer false, or there is a first one
that answers true. -/
theorem probeAnswer_cases {σ : Type} (C : Collab σ) (port : Int) (n : Nat) (v : σ) :
    (∀ i, i < n → probeAnswer C port i v = false) ∨
      ∃ k, k < n ∧ (∀ i, i < k → probeAnswer C port i v = false) ∧
        probeAnswer C port k v = true := by
  induction n with
  | zero => exact Or.inl (fun i hi => by omega)
  | succ n ih =>
    rcases ih with hall | ⟨k, hk, hlt, ht⟩
    · cases hb : probeAnswer C port n v with
      | false =>
        refine Or.inl (fun i hi => ?_)
        rcases Nat.lt_succ_iff_lt_or_eq.mp hi with h | h
        · exact hall i h
        · rw [h]; exact hb
      | true => exact Or.inr ⟨n, by omega, hall, hb⟩
    · exact Or.inr ⟨k, by omega, hlt, ht⟩

/-- The world after round `k` is the one the probe of round `k` returns. -/
theorem probeWorld_succ {σ : Type} (C : Collab σ) (port : Int) (k : Nat) (v : σ) :
    probeWorld C port (k + 1) v
      = (C.CheckListening port (C.Sleep redisChkDelay (probeWorld C port k v))).2 := by
  induction k generalizing v with
  | zero => rfl
  | succ k ih =>
    show probeWorld C port (k + 1) (C.CheckListening port (C.Sleep redisChkDelay v)).2 = _
    rw [ih]
    rfl

/-! ## The paths through `Start` -/

theorem Start_checkFail {σ Container : Type} (C : Collab σ) (s : redisService Container)
    (w w1 : σ) (e : Error)
    (h1 : C.CheckExecutable ["redis-server", "redis-cli"] w = (some e, w1)) :
    Start C s w = ⟨Outcome.ret ("", some e), s, w1,
      [Event.checkExecutable ["redis-server", "redis-cli"] (some e)]⟩ := by
  simp only [Start, h1]

theorem Start_bookFail {σ Container : Type} (C : Collab σ) (s : redisService Container)
    (w w1 w2 : σ) (ports : List Int) (e : Error)
    (h1 : C.CheckExecutable ["redis-server", "redis-cli"] w = (none, w1))
    (h2 : C.BookPorts 1 w1 = ((ports, some e), w2)) :
    Start C s w = ⟨Outcome.ret ("", some ("fail to book ports, err:" ++ e)), s, w2,
      [Event.checkExecutable ["redis-server", "redis-cli"] none,
        Event.bookPorts 1 ports (some e)]⟩ := by
  simp only [Start, h1, h2, List.cons_append, List.nil_append]

theorem Start_bookEmpty {σ Container : Type} (C : Collab σ) (s : redisService Container)
    (w w1 w2 : σ)
    (h1 : C.CheckExecutable ["redis-server", "redis-cli"] w = (none, w1))
    (h2 : C.BookPorts 1 w1 = (([], none), w2)) :
    Start C s w = ⟨Outcome.panic "index out of range", s, w2,
      [Event.checkExecutable ["redis-server", "redis-cli"] none,
        Event.bookPorts 1 [] none]⟩ := by
  simp only [Start, h1, h2, List.cons_append, List.nil_append]

theorem Start_tmpFail {σ Container : Type} (C : Collab σ) (s : redisService Container)
    (w w1 w2 w3 : σ) (p : Int) (ps : List Int) (d : String) (e : Error)
    (h1 : C.CheckExecutable ["redis-server", "redis-cli"] w = (none, w1))
    (h2 : C.BookPorts 1 w1 = ((p :: ps, none), w2))
    (h3 : C.TempDir "" "redis-test" w2 = ((d, some e), w3)) :
    Start C s w = ⟨Outcome.ret ("", some ("fail to prepare tmp dir, err:" ++ e)),
      { s with port := p, workDir := d }, w3,
      [Event.checkExecutable ["redis-server", "redis-cli"] none,
        Event.bookPorts 1 (p :: ps) none,
        Event.tempDir "" "redis-test" d (some e)]⟩ := by
  simp only [Start, h1, h2, h3, List.cons_append, List.nil_append]

theorem Start_launched {σ Container : Type} (C : Collab σ) (s : redisService Container)
    (w w1 w2 w3 w4 : σ) (p : Int) (ps : List Int) (d : String) (r : Option Error)
    (h1 : C.CheckExecutable ["redis-server", "redis-cli"] w = (none, w1))
    (h2 : C.BookPorts 1 w1 = ((p :: ps, none), w2))
    (h3 : C.TempDir "" "redis-test" w2 = ((d, none), w3))
    (h4 : C.Exec d "redis-server" (startCmds C.Join { s with port := p, workDir := d }) w3
      = (r, w4)) :
    Start C s w =
      match r with
      | some e =>
        ⟨Outcome.ret ("", some ("fail to start redis server, err:" ++ e)),
          { s with port := p, workDir := d }, w4,
          [Event.checkExecutable ["redis-server", "redis-cli"] none,
            Event.bookPorts 1 (p :: ps) none,
            Event.tempDir "" "redis-test" d none,
            Event.exec d "redis-server"
              (startCmds C.Join { s with port := p, workDir := d }) (some e)]⟩
      | none =>
        ⟨(if (pollLoop C p redisChkTimes w4).1 = true
            then Outcome.ret ("localhost:" ++ fmtD p, none)
            else Outcome.ret ("", some "fail to start redis")),
          { s with port := p, workDir := d }, (pollLoop C p redisChkTimes w4).2.1,
          [Event.checkExecutable ["redis-server", "redis-cli"] none,
            Event.bookPorts 1 (p :: ps) none,
            Event.tempDir "" "redis-test" d none,
            Event.exec d "redis-server"
              (startCmds C.Join { s with port := p, workDir := d }) none]
            ++ (pollLoop C p redisChkTimes w4).2.2⟩ := by
  cases r with
  | some e => simp only [Start, h1, h2, h3, h4, List.cons_append, List.nil_append]
  | none =>
    simp only [Start, h1, h2, h3, h4, List.cons_append, List.nil_append]
    rcases hp : pollLoop C p redisChkTimes w4 with ⟨b, w5, tr⟩
    cases b <;> simp

theorem Start_execFail {σ Container : Type} (C : Collab σ) (s : redisService Container)
    (w w1 w2 w3 w4 : σ) (p : Int) (ps : List Int) (d : String) (e : Error)
    (h1 : C.CheckExecutable ["redis-server", "redis-cli"] w = (none, w1))
    (h2 : C.BookPorts 1 w1 = ((p :: ps, none), w2))
    (h3 : C.TempDir "" "redis-test" w2 = ((d, none), w3))
    (h4 : C.Exec d "redis-server" (startCmds C.Join { s with port := p, workDir := d }) w3
      = (some e, w4)) :
    Start C s w =
      ⟨Outcome.ret ("", some ("fail to start redis server, err:" ++ e)),
        { s with port := p, workDir := d }, w4,
        [Event.checkExecutable ["redis-server", "redis-cli"] none,
          Event.bookPorts 1 (p :: ps) none,
          Event.tempDir "" "redis-test" d none,
          Event.exec d "redis-server"
            (startCmds C.Join { s with port := p, workDir := d }) (some e)]⟩ :=
  Start_launched C s w w1 w2 w3 w4 p ps d (some e) h1 h2 h3 h4

theorem Start_timeout {σ Container : Type} (C : Collab σ) (s : redisService Container)
    (w w1 w2 w3 w4 : σ) (p : Int) (ps : List Int) (d : String)
    (h1 : C.CheckExecutable ["redis-server", "redis-cli"] w = (none, w1))
    (h2 : C.BookPorts 1 w1 = ((p :: ps, none), w2))
    (h3 : C.TempDir "" "redis-test" w2 = ((d, none), w3))
    (h4 : C.Exec d "redis-server" (startCmds C.Join { s with port := p, workDir := d }) w3
      = (none, w4))
    (hfalse : ∀ i, i < redisChkTimes → probeAnswer C p i w4 = false) :
    Start C s w =
      ⟨Outcome.ret ("", some "fail to start redis"),
        { s with port := p, workDir := d }, probeWorld C p redisChkTimes w4,
        [Event.checkExecutable ["redis-server", "redis-cli"] none,
          Event.bookPorts 1 (p :: ps) none,
          Event.tempDir "" "redis-test" d none,
          Event.exec d "redis-server"
            (startCmds C.Join { s with port := p, workDir := d }) none]
          ++ failedRounds p redisChkTimes⟩ := by
  have hL := Start_launched C s w w1 w2 w3 w4 p ps d none h1 h2 h3 h4
  simp only at hL
  rw [hL, pollLoop_all_false C p redisChkTimes w4 hfalse]
  simp

theorem Start_ready {σ Container : Type} (C : Collab σ) (s : redisService Container)
    (w w1 w2 w3 w4 : σ) (p : Int) (ps : List Int) (d : String) (k : Nat)
    (h1 : C.CheckExecutable ["redis-server", "redis-cli"] w = (none, w1))
    (h2 : C.BookPorts 1 w1 = ((p :: ps, none), w2))
    (h3 : C.TempDir "" "redis-test" w2 = ((d, none), w3))
    (h4 : C.Exec d "redis-server" (startCmds C.Join { s with port := p, workDir := d }) w3
      = (none, w4))
    (hk : k < redisChkTimes) (hfalse : ∀ i, i < k → probeAnswer C p i w4 = false)
    (htrue : probeAnswer C p k w4 = true) :
    Start C s w =
      ⟨Outcome.ret ("localhost:" ++ fmtD p, none),
        { s with port := p, workDir := d }, probeWorld C p (k + 1) w4,
        [Event.checkExecutable ["redis-server", "redis-cli"] none,
          Event.bookPorts 1 (p :: ps) none,
          Event.tempDir "" "redis-test" d none,
          Event.exec d "redis-server"
            (startCmds C.Join { s with port := p, workDir := d }) none]
          ++ (failedRounds p k
            ++ [Event.sleep redisChkDelay, Event.checkListening p true])⟩ := by
  have hL := Start_launched C s w w1 w2 w3 w4 p ps d none h1 h2 h3 h4
  simp only at hL
  rw [hL, pollLoop_first_true C p redisChkTimes k w4 hk hfalse htrue]
  simp

/-- The arguments of the launch, written out. -/
theorem startCmds_eq {Container : Type} (join : String → String → String)
    (s : redisService Container) (p : Int) (d : String) :
    startCmds join { s with port := p, workDir := d }
      = [Arg.str "--daemonize", Arg.str "yes", Arg.str "--port", Arg.int p,
          Arg.str "--pidfile", Arg.str (join d "redis.pid"),
          Arg.str "--logfile", Arg.str (join d "redis.log"),
          Arg.str "--dir", Arg.str d, Arg.str "--maxmemory", Arg.str s.maxMemory]
        ++ (if s.auth ≠ "" then [Arg.str "--requirepass", Arg.str s.auth] else []) := by
  unfold startCmds
  by_cases ha : s.auth = "" <;> simp [ha]

theorem isPoll_not_others (ev : Event) (h : ev.isPoll = true) :
    ev.isCheckExecutable = false ∧ ev.isBookPorts = false ∧ ev.isTempDir = false ∧
      ev.isExec = false := by
  cases ev <;> simp_all [Event.isPoll, Event.isCheckExecutable, Event.isBookPorts,
    Event.isTempDir, Event.isExec]

theorem countP_poll_zero (tr : List Event) (h : ∀ ev ∈ tr, ev.isPoll = true) :
    tr.countP Event.isCheckExecutable = 0 ∧ tr.countP Event.isBookPorts = 0 ∧
      tr.countP Event.isTempDir = 0 ∧ tr.countP Event.isExec = 0 := by
  refine ⟨?_, ?_, ?_, ?_⟩ <;> rw [List.countP_eq_zero] <;> intro ev hev
  · simp [(isPoll_not_others ev (h ev hev)).1]
  · simp [(isPoll_not_others ev (h ev hev)).2.1]
  · simp [(isPoll_not_others ev (h ev hev)).2.2.1]
  · simp [(isPoll_not_others ev (h ev hev)).2.2.2]

theorem rounds_isPoll (port : Int) (k : Nat) (tail : List Event)
    (ht : ∀ ev ∈ tail, ev.isPoll = true) :
    ∀ ev ∈ failedRounds port k ++ tail, ev.isPoll = true := by
  intro ev hev
  rcases List.mem_append.mp hev with h | h
  · exact failedRounds_isPoll port k ev h
  · exact ht ev h

theorem filter_isExec_poll (tr : List Event) (h : ∀ ev ∈ tr, ev.isPoll = true) :
    tr.filter Event.isExec = [] := by
  rw [List.filter_eq_nil_iff]
  intro ev hev
  simp [(isPoll_not_others ev (h ev hev)).2.2.2]

theorem ready_isPoll (port : Int) :
    ∀ ev ∈ [Event.sleep redisChkDelay, Event.checkListening port true], ev.isPoll = true := by
  intro ev hev
  simp only [List.mem_cons, List.mem_singleton, List.not_mem_nil, or_false] at hev
  rcases hev with rfl | rfl <;> rfl

/-! ## The claims -/

/-- C1: when the executable check, the port booking (with first port `p`),
the temp-directory creation and the launch of redis-server all succeed but
`CheckListening(p)` answers false on each of the ten calls of the readiness
loop, `Start` returns the startup-timeout error with an empty endpoint, and
`CheckListening` has been called exactly `redisChkTimes = 10` times, each time
with the booked port: the world `Start` leaves is the one after ten rounds of
`Sleep` and `CheckListening(p)`, and the trace is the four setup calls
followed by those ten rounds. -/
theorem Start_timeout_after_redisChkTimes {σ Container : Type} (C : Collab σ)
    (s : redisService Container) (w w1 w2 w3 w4 : σ) (p : Int) (ps : List Int) (d : String)
    (h1 : C.CheckExecutable ["redis-server", "redis-cli"] w = (none, w1))
    (h2 : C.BookPorts 1 w1 = ((p :: ps, none), w2))
    (h3 : C.TempDir "" "redis-test" w2 = ((d, none), w3))
    (h4 : C.Exec d "redis-server" (startCmds C.Join { s with port := p, workDir := d }) w3
      = (none, w4))
    (hfalse : ∀ i, i < redisChkTimes →
      (C.CheckListening p (C.Sleep redisChkDelay (probeWorld C p i w4))).1 = false) :
    (Start C s w).out = Outcome.ret ("", some "fail to start redis") ∧
      (Start C s w).world = probeWorld C p redisChkTimes w4 ∧
      (Start C s w).trace =
        [Event.checkExecutable ["redis-server", "redis-cli"] none,
          Event.bookPorts 1 (p :: ps) none,
          Event.tempDir "" "redis-test" d none,
          Event.exec d "redis-server"
            (startCmds C.Join { s with port := p, workDir := d }) none]
          ++ failedRounds p redisChkTimes ∧
      probes (Start C s w).trace = List.replicate redisChkTimes (p, false) ∧
      (probes (Start C s w).trace).length = 10 := by
  rw [Start_timeout C s w w1 w2 w3 w4 p ps d h1 h2 h3 h4 hfalse]
  have hq : probes ([Event.checkExecutable ["redis-server", "redis-cli"] none,
      Event.bookPorts 1 (p :: ps) none, Event.tempDir "" "redis-test" d none,
      Event.exec d "redis-server"
        (startCmds C.Join { s with port := p, workDir := d }) none]
        ++ failedRounds p redisChkTimes) = List.replicate redisChkTimes (p, false) := by
    rw [probes_append, probes_failedRounds]
    rfl
  refine ⟨rfl, rfl, rfl, hq, ?_⟩
  show (probes (_ ++ failedRounds p redisChkTimes)).length = 10
  rw [hq]
  simp [redisChkTimes]

/-- A run of C1: the port would listen from the eleventh probe on; the ten
probes made all fail, and `Start` gives up. -/
theorem Start_timeout_after_redisChkTimes_witness :
    (Start (scripted { goodScript with readyAt := 11 }) (newRedisService Nat) 0).out
        = Outcome.ret ("", some "fail to start redis") ∧
      (Start (scripted { goodScript with readyAt := 11 }) (newRedisService Nat) 0).world
        = probeWorld (scripted { goodScript with readyAt := 11 }) 7000 redisChkTimes 0 ∧
      (Start (scripted { goodScript with readyAt := 11 }) (newRedisService Nat) 0).trace =
        [Event.checkExecutable ["redis-server", "redis-cli"] none,
          Event.bookPorts 1 (7000 :: [7001]) none,
          Event.tempDir "" "redis-test" "/tmp/redis-test1" none,
          Event.exec "/tmp/redis-test1" "redis-server"
            (startCmds (scripted { goodScript with readyAt := 11 }).Join
              { newRedisService Nat with port := 7000, workDir := "/tmp/redis-test1" }) none]
          ++ failedRounds 7000 redisChkTimes ∧
      probes (Start (scripted { goodScript with readyAt := 11 }) (newRedisService Nat) 0).trace
        = List.replicate redisChkTimes (7000, false) ∧
      (probes (Start (scripted { goodScript with readyAt := 11 })
        (newRedisService Nat) 0).trace).length = 10 :=
  Start_timeout_after_redisChkTimes (scripted { goodScript with readyAt := 11 })
    (newRedisService Nat) 0 0 0 0 0 7000 [7001] "/tmp/redis-test1" rfl rfl rfl rfl
    (by decide)

/-- C2: if `Start` returns without error, then the executable check, the
booking, the temp-directory creation and the launch all returned no error,
`BookPorts(1)` returned a list with first port `p`, some round `k < 10` of the
readiness loop is the first whose `CheckListening(p)` answered true, and that
call is the last one `Start` made; the endpoint is `localhost:` followed by
the decimal rendering of `p`, and `p` is the `port` field afterwards. -/
theorem Start_success_endpoint {σ Container : Type} (C : Collab σ)
    (s : redisService Container) (w : σ) (ep : String)
    (h : (Start C s w).out = Outcome.ret (ep, none)) :
    ∃ w1 p ps w2 d w3 w4 k,
      C.CheckExecutable ["redis-server", "redis-cli"] w = (none, w1) ∧
      C.BookPorts 1 w1 = ((p :: ps, none), w2) ∧
      C.TempDir "" "redis-test" w2 = ((d, none), w3) ∧
      C.Exec d "redis-server" (startCmds C.Join { s with port := p, workDir := d }) w3
        = (none, w4) ∧
      k < redisChkTimes ∧
      (∀ i, i < k →
        (C.CheckListening p (C.Sleep redisChkDelay (probeWorld C p i w4))).1 = false) ∧
      C.CheckListening p (C.Sleep redisChkDelay (probeWorld C p k w4))
        = (true, (Start C s w).world) ∧
      ep = "localhost:" ++ toString p ∧
      (Start C s w).svc.port = p ∧
      (Start C s w).trace =
        [Event.checkExecutable ["redis-server", "redis-cli"] none,
          Event.bookPorts 1 (p :: ps) none,
          Event.tempDir "" "redis-test" d none,
          Event.exec d "redis-server"
            (startCmds C.Join { s with port := p, workDir := d }) none]
          ++ (failedRounds p k
            ++ [Event.sleep redisChkDelay, Event.checkListening p true]) ∧
      (probes (Start C s w).trace).getLast? = some (p, true) := by
  rcases h1 : C.CheckExecutable ["redis-server", "redis-cli"] w with ⟨_ | e, w1⟩
  swap
  · rw [Start_checkFail C s w w1 e h1] at h
    simp at h
  rcases h2 : C.BookPorts 1 w1 with ⟨⟨ports, _ | e⟩, w2⟩
  swap
  · rw [Start_bookFail C s w w1 w2 ports e h1 h2] at h
    simp at h
  cases ports with
  | nil =>
    rw [Start_bookEmpty C s w w1 w2 h1 h2] at h
    simp at h
  | cons p ps =>
    rcases h3 : C.TempDir "" "redis-test" w2 with ⟨⟨d, _ | e⟩, w3⟩
    swap
    · rw [Start_tmpFail C s w w1 w2 w3 p ps d e h1 h2 h3] at h
      simp at h
    rcases h4 : C.Exec d "redis-server"
      (startCmds C.Join { s with port := p, workDir := d }) w3 with ⟨_ | e, w4⟩
    swap
    · rw [Start_execFail C s w w1 w2 w3 w4 p ps d e h1 h2 h3 h4] at h
      simp at h
    rcases probeAnswer_cases C p redisChkTimes w4 with hall | ⟨k, hk, hlt, ht⟩
    · rw [Start_timeout C s w w1 w2 w3 w4 p ps d h1 h2 h3 h4 hall] at h
      simp at h
    · have hS := Start_ready C s w w1 w2 w3 w4 p ps d k h1 h2 h3 h4 hk hlt ht
      rw [hS] at h ⊢
      simp only [Outcome.ret.injEq, Prod.mk.injEq, and_true] at h
      refine ⟨w1, p, ps, w2, d, w3, w4, k, rfl, h2, h3, h4, hk, hlt, ?_, h.symm, rfl, rfl, ?_⟩
      · exact Prod.ext ht (probeWorld_succ C p k w4).symm
      · show (probes (_ ++ (failedRounds p k ++ _))).getLast? = _
        rw [probes_append, probes_append, probes_failedRounds]
        simp [probes]

/-- A run of C2: port 7000 is booked and found listening at the third probe. -/
theorem Start_success_endpoint_witness :
    ∃ w1 p ps w2 d w3 w4 k,
      (scripted goodScript).CheckExecutable ["redis-server", "redis-cli"] 0 = (none, w1) ∧
      (scripted goodScript).BookPorts 1 w1 = ((p :: ps, none), w2) ∧
      (scripted goodScript).TempDir "" "redis-test" w2 = ((d, none), w3) ∧
      (scripted goodScript).Exec d "redis-server"
        (startCmds (scripted goodScript).Join
          { newRedisService Nat with port := p, workDir := d }) w3 = (none, w4) ∧
      k < redisChkTimes ∧
      (∀ i, i < k →
        ((scripted goodScript).CheckListening p
          ((scripted goodScript).Sleep redisChkDelay
            (probeWorld (scripted goodScript) p i w4))).1 = false) ∧
      (scripted goodScript).CheckListening p
          ((scripted goodScript).Sleep redisChkDelay (probeWorld (scripted goodScript) p k w4))
        = (true, (Start (scripted goodScript) (newRedisService Nat) 0).world) ∧
      "localhost:7000" = "localhost:" ++ toString p ∧
      (Start (scripted goodScript) (newRedisService Nat) 0).svc.port = p ∧
      (Start (scripted goodScript) (newRedisService Nat) 0).trace =
        [Event.checkExecutable ["redis-server", "redis-cli"] none,
          Event.bookPorts 1 (p :: ps) none,
          Event.tempDir "" "redis-test" d none,
          Event.exec d "redis-server"
            (startCmds (scripted goodScript).Join
              { newRedisService Nat with port := p, workDir := d }) none]
          ++ (failedRounds p k
            ++ [Event.sleep redisChkDelay, Event.checkListening p true]) ∧
      (probes (Start (scripted goodScript) (newRedisService Nat) 0).trace).getLast?
        = some (p, true) :=
  Start_success_endpoint (scripted goodScript) (newRedisService Nat) 0 "localhost:7000" rfl

/-- C3: if `CheckExecutable("redis-server", "redis-cli")` reports an error,
`Start` returns that error with an empty endpoint, the only collaborator call
made is that check (no port booking, no temp directory, no launch, no probe),
and every field of the instance is unchanged. -/
theorem Start_missing_executable {σ Container : Type} (C : Collab σ)
    (s : redisService Container) (w : σ) (e : Error)
    (h : (C.CheckExecutable ["redis-server", "redis-cli"] w).1 = some e) :
    (Start C s w).out = Outcome.ret ("", some e) ∧
      (Start C s w).trace = [Event.checkExecutable ["redis-server", "redis-cli"] (some e)] ∧
      (Start C s w).svc = s ∧
      (Start C s w).world = (C.CheckExecutable ["redis-server", "redis-cli"] w).2 := by
  rcases hc : C.CheckExecutable ["redis-server", "redis-cli"] w with ⟨r, w1⟩
  rw [hc] at h
  simp only at h
  subst h
  rw [Start_checkFail C s w w1 e hc]
  exact ⟨rfl, rfl, rfl, rfl⟩

/-- A run of C3: redis-server is not installed. -/
theorem Start_missing_executable_witness :
    (Start (scripted { goodScript with check := some "redis-server not found" })
        (newRedisService Nat) 0).out = Outcome.ret ("", some "redis-server not found") ∧
      (Start (scripted { goodScript with check := some "redis-server not found" })
        (newRedisService Nat) 0).trace
        = [Event.checkExecutable ["redis-server", "redis-cli"]
            (some "redis-server not found")] ∧
      (Start (scripted { goodScript with check := some "redis-server not found" })
        (newRedisService Nat) 0).svc = newRedisService Nat ∧
      (Start (scripted { goodScript with check := some "redis-server not found" })
        (newRedisService Nat) 0).world
        = ((scripted { goodScript with check := some "redis-server not found" }).CheckExecutable
            ["redis-server", "redis-cli"] 0).2 :=
  Start_missing_executable (scripted { goodScript with check := some "redis-server not found" })
    (newRedisService Nat) 0 "redis-server not found" rfl

/-- C4, as stated, fails: after `RedisPort(6380)` on a fresh instance, `Start`
still calls `BookPorts` and the endpoint carries the booked port 7000, not
6380. -/
theorem Start_ignores_RedisPort :
    (RedisPort showService 6380 (Service.redis (newRedisService Nat))).svc
        = Service.redis { newRedisService Nat with port := 6380 } ∧
      (Start (scripted goodScript) { newRedisService Nat with port := 6380 } 0).trace.any
        Event.isBookPorts = true ∧
      (Start (scripted goodScript) { newRedisService Nat with port := 6380 } 0).out
        = Outcome.ret ("localhost:7000", none) ∧
      (Start (scripted goodScript) { newRedisService Nat with port := 6380 } 0).out
        ≠ Outcome.ret ("localhost:6380", none) := by
  refine ⟨rfl, by decide, rfl, by decide⟩

/-- C4, amended: for every port `p`, if `RedisPort(p)` was applied to a redis
fixture instance before `Start` and the executable check passes, the second
collaborator call of `Start` is `BookPorts(1)`, and it is its only call of
`BookPorts`.  If that call returns an error, `Start` returns it and stops.  If
it returns a first port `q` without error, `q` replaces `p` in the `port`
field and is the port `Start` uses from then on: once the temp directory `d`
is created, the launch is `Exec` of `redis-server` with `--port q`; once the
launch succeeds, every round of the readiness loop is `CheckListening(q)`; and
when one of the ten rounds answers true, the returned endpoint is
`localhost:` followed by the decimal rendering of `q`. -/
theorem Start_rebooks_after_RedisPort {σ Container Other : Type}
    (fmtV : Service Container Other → String) (C : Collab σ)
    (rs s1 : redisService Container) (p : Int) (w w1 : σ)
    (hopt : (RedisPort fmtV p (Service.redis rs)).svc = Service.redis s1)
    (h1 : C.CheckExecutable ["redis-server", "redis-cli"] w = (none, w1)) :
    s1.port = p ∧
      (Start C s1 w).trace.countP Event.isBookPorts = 1 ∧
      (Start C s1 w).trace.take 2 =
        [Event.checkExecutable ["redis-server", "redis-cli"] none,
          Event.bookPorts 1 (C.BookPorts 1 w1).1.1 (C.BookPorts 1 w1).1.2] ∧
      (∀ e, (C.BookPorts 1 w1).1.2 = some e →
        (Start C s1 w).out = Outcome.ret ("", some ("fail to book ports, err:" ++ e)) ∧
          (Start C s1 w).world = (C.BookPorts 1 w1).2 ∧
          (Start C s1 w).trace.length = 2) ∧
      (∀ q qs w2, C.BookPorts 1 w1 = ((q :: qs, none), w2) →
        (Start C s1 w).svc.port = q ∧
        ∀ d w3, C.TempDir "" "redis-test" w2 = ((d, none), w3) →
          ∃ args,
            args = [Arg.str "--daemonize", Arg.str "yes", Arg.str "--port", Arg.int q,
                Arg.str "--pidfile", Arg.str (C.Join d "redis.pid"),
                Arg.str "--logfile", Arg.str (C.Join d "redis.log"),
                Arg.str "--dir", Arg.str d, Arg.str "--maxmemory", Arg.str s1.maxMemory]
              ++ (if s1.auth ≠ "" then [Arg.str "--requirepass", Arg.str s1.auth] else []) ∧
            (Start C s1 w).trace.take 4 =
              [Event.checkExecutable ["redis-server", "redis-cli"] none,
                Event.bookPorts 1 (q :: qs) none,
                Event.tempDir "" "redis-test" d none,
                Event.exec d "redis-server" args (C.Exec d "redis-server" args w3).1] ∧
            ∀ w4, C.Exec d "redis-server" args w3 = (none, w4) →
              ((∀ i, i < redisChkTimes → probeAnswer C q i w4 = false) →
                (Start C s1 w).out = Outcome.ret ("", some "fail to start redis") ∧
                (Start C s1 w).world = probeWorld C q redisChkTimes w4 ∧
                (Start C s1 w).trace.drop 4 = failedRounds q redisChkTimes) ∧
              (∀ k, k < redisChkTimes → (∀ i, i < k → probeAnswer C q i w4 = false) →
                probeAnswer C q k w4 = true →
                (Start C s1 w).out = Outcome.ret ("localhost:" ++ toString q, none) ∧
                (Start C s1 w).world = probeWorld C q (k + 1) w4 ∧
                (Start C s1 w).trace.drop 4 = failedRounds q k
                  ++ [Event.sleep redisChkDelay, Event.checkListening q true])) := by
  have hport : s1.port = p := by
    simp only [RedisPort, Service.redis.injEq] at hopt
    rw [← hopt]
  refine ⟨hport, ?_⟩
  rcases h2 : C.BookPorts 1 w1 with ⟨⟨ports, _ | e⟩, w2⟩
  swap
  · rw [Start_bookFail C s1 w w1 w2 ports e h1 h2]
    refine ⟨by simp [Event.isBookPorts], rfl, ?_, ?_⟩
    · intro e1 he1
      simp only [Option.some.injEq] at he1
      subst he1
      exact ⟨rfl, rfl, rfl⟩
    · intro q qs v2 hq
      simp at hq
  cases ports with
  | nil =>
    rw [Start_bookEmpty C s1 w w1 w2 h1 h2]
    refine ⟨by simp [Event.isBookPorts], rfl, by simp, ?_⟩
    intro q qs v2 hq
    simp at hq
  | cons q0 qs0 =>
    have hcount : ∀ tr : List Event, (∀ ev ∈ tr, ev.isPoll = true) →
        ∀ r3 r4 d,
        ([Event.checkExecutable ["redis-server", "redis-cli"] none,
          Event.bookPorts 1 (q0 :: qs0) none, Event.tempDir "" "redis-test" d r3,
          Event.exec d "redis-server"
            (startCmds C.Join { s1 with port := q0, workDir := d }) r4]
          ++ tr).countP Event.isBookPorts = 1 := by
      intro tr htr r3 r4 d
      simp only [List.countP_append, (countP_poll_zero tr htr).2.1]
      simp [Event.isBookPorts, List.countP_cons]
    rcases h3 : C.TempDir "" "redis-test" w2 with ⟨⟨d0, _ | e⟩, w3⟩
    swap
    · rw [Start_tmpFail C s1 w w1 w2 w3 q0 qs0 d0 e h1 h2 h3]
      refine ⟨by simp [Event.isBookPorts], rfl, by simp, ?_⟩
      intro q qs v2 hq
      simp only [Prod.mk.injEq, List.cons.injEq, and_true] at hq
      obtain ⟨⟨hq1, hq2⟩, hq3⟩ := hq
      subst hq1 hq2 hq3
      refine ⟨rfl, ?_⟩
      intro d v3 hd
      rw [h3] at hd
      simp at hd
    rcases h4 : C.Exec d0 "redis-server"
      (startCmds C.Join { s1 with port := q0, workDir := d0 }) w3 with ⟨r, w4⟩
    have hmain : (Start C s1 w).trace.countP Event.isBookPorts = 1 ∧
        (Start C s1 w).trace.take 2 =
          [Event.checkExecutable ["redis-server", "redis-cli"] none,
            Event.bookPorts 1 (q0 :: qs0) none] ∧
        (Start C s1 w).svc.port = q0 ∧
        (Start C s1 w).trace.take 4 =
          [Event.checkExecutable ["redis-server", "redis-cli"] none,
            Event.bookPorts 1 (q0 :: qs0) none,
            Event.tempDir "" "redis-test" d0 none,
            Event.exec d0 "redis-server"
              (startCmds C.Join { s1 with port := q0, workDir := d0 }) r] := by
      cases r with
      | some e =>
        rw [Start_execFail C s1 w w1 w2 w3 w4 q0 qs0 d0 e h1 h2 h3 h4]
        exact ⟨by simp [Event.isBookPorts], rfl, rfl, rfl⟩
      | none =>
        rcases probeAnswer_cases C q0 redisChkTimes w4 with hall | ⟨k, hk, hlt, ht⟩
        · rw [Start_timeout C s1 w w1 w2 w3 w4 q0 qs0 d0 h1 h2 h3 h4 hall]
          exact ⟨hcount _ (failedRounds_isPoll q0 redisChkTimes) none none d0, rfl, rfl, rfl⟩
        · rw [Start_ready C s1 w w1 w2 w3 w4 q0 qs0 d0 k h1 h2 h3 h4 hk hlt ht]
          exact ⟨hcount _ (rounds_isPoll q0 k _ (ready_isPoll q0)) none none d0, rfl, rfl, rfl⟩
    refine ⟨hmain.1, hmain.2.1, by simp, ?_⟩
    intro q qs v2 hq
    simp only [Prod.mk.injEq, List.cons.injEq, and_true] at hq
    obtain ⟨⟨hq1, hq2⟩, hq3⟩ := hq
    subst hq1 hq2 hq3
    refine ⟨hmain.2.2.1, ?_⟩
    intro d v3 hd
    rw [h3] at hd
    simp only [Prod.mk.injEq, and_true] at hd
    obtain ⟨hd1, hd2⟩ := hd
    subst hd1 hd2
    refine ⟨startCmds C.Join { s1 with port := q0, workDir := d0 },
      startCmds_eq C.Join s1 q0 d0, ?_, ?_⟩
    · rw [h4]
      exact hmain.2.2.2
    · intro v4 hv4
      rw [h4] at hv4
      simp only [Prod.mk.injEq] at hv4
      obtain ⟨hr, hv⟩ := hv4
      subst hr hv
      constructor
      · intro hall
        rw [Start_timeout C s1 w w1 w2 w3 w4 q0 qs0 d0 h1 h2 h3 h4 hall]
        exact ⟨rfl, rfl, rfl⟩
      · intro k hk hlt ht
        rw [Start_ready C s1 w w1 w2 w3 w4 q0 qs0 d0 k h1 h2 h3 h4 hk hlt ht]
        exact ⟨rfl, rfl, rfl⟩

/-- A run of the amended C4: port 6380 is pre-set, `BookPorts` is called once
and returns 7000, and 7000 is the port launched, probed and returned. -/
theorem Start_rebooks_after_RedisPort_witness :
    ({ newRedisService Nat with port := 6380 } : redisService Nat).port = 6380 ∧
      (Start (scripted goodScript) { newRedisService Nat with port := 6380 } 0).trace.countP
        Event.isBookPorts = 1 ∧
      (Start (scripted goodScript) { newRedisService Nat with port := 6380 } 0).trace.take 2 =
        [Event.checkExecutable ["redis-server", "redis-cli"] none,
          Event.bookPorts 1 ((scripted goodScript).BookPorts 1 0).1.1
            ((scripted goodScript).BookPorts 1 0).1.2] ∧
      (Start (scripted goodScript) { newRedisService Nat with port := 6380 } 0).svc.port
        = 7000 ∧
      (Start (scripted goodScript) { newRedisService Nat with port := 6380 } 0).out
        = Outcome.ret ("localhost:" ++ toString (7000 : Int), none) ∧
      (Start (scripted goodScript) { newRedisService Nat with port := 6380 } 0).world
        = probeWorld (scripted goodScript) 7000 (2 + 1) 0 ∧
      (Start (scripted goodScript) { newRedisService Nat with port := 6380 } 0).trace.drop 4
        = failedRounds 7000 2 ++ [Event.sleep redisChkDelay, Event.checkListening 7000 true] := by
  have h := Start_rebooks_after_RedisPort showService (scripted goodScript)
    (newRedisService Nat) { newRedisService Nat with port := 6380 } 6380 0 0 rfl rfl
  have hq := h.2.2.2.2 7000 [7001] 0 rfl
  obtain ⟨args, hargs, -, hrun⟩ := hq.2 "/tmp/redis-test1" 0 rfl
  have hready := (hrun 0 rfl).2 2 (by decide) (by decide) (by decide)
  exact ⟨h.1, h.2.1, h.2.2.1, hq.1, hready.1, hready.2.1, hready.2.2⟩

/-- C5: each of `RedisMemory(m)`, `RedisPort(p)` and `RedisAuth(a)`, applied
to a `Service` value whose dynamic type is not `*redisService`, returns a
non-nil error (it neither panics nor returns nil) and leaves the service value
as it was. -/
theorem options_reject_other_services {Container Other : Type}
    (fmtV : Service Container Other → String) (m : String) (p : Int) (a : String)
    (sv : Service Container Other) (h : sv.isRedisService = false) :
    (∃ e, (RedisMemory fmtV m sv).out = Outcome.ret (some e)) ∧
      (RedisMemory fmtV m sv).svc = sv ∧
      (∃ e, (RedisPort fmtV p sv).out = Outcome.ret (some e)) ∧
      (RedisPort fmtV p sv).svc = sv ∧
      (∃ e, (RedisAuth fmtV a sv).out = Outcome.ret (some e)) ∧
      (RedisAuth fmtV a sv).svc = sv := by
  cases sv with
  | nil => exact ⟨⟨_, rfl⟩, rfl, ⟨_, rfl⟩, rfl, ⟨_, rfl⟩, rfl⟩
  | redis rs => simp [Service.isRedisService] at h
  | redisNil => simp [Service.isRedisService] at h
  | other o => exact ⟨⟨_, rfl⟩, rfl, ⟨_, rfl⟩, rfl, ⟨_, rfl⟩, rfl⟩

/-- A run of C5: the options applied to a service of another type. -/
theorem options_reject_other_services_witness :
    (∃ e, (RedisMemory showService "128mb" (Service.other "mongo")).out
        = Outcome.ret (some e)) ∧
      (RedisMemory showService "128mb" (Service.other "mongo")).svc = Service.other "mongo" ∧
      (∃ e, (RedisPort showService 6380 (Service.other "mongo")).out
        = Outcome.ret (some e)) ∧
      (RedisPort showService 6380 (Service.other "mongo")).svc = Service.other "mongo" ∧
      (∃ e, (RedisAuth showService "secret" (Service.other "mongo")).out
        = Outcome.ret (some e)) ∧
      (RedisAuth showService "secret" (Service.other "mongo")).svc = Service.other "mongo" :=
  options_reject_other_services showService "128mb" 6380 "secret" (Service.other "mongo") rfl

/-- C6: when `Start` reaches the launch step with booked port `p` and scratch
directory `d`, its fourth collaborator call, and its only `Exec` call, is
`Exec` applied to the working directory `d`, the command `redis-server` and
the argument list
`--daemonize yes --port p --pidfile d/redis.pid --logfile d/redis.log --dir d
--maxmemory maxMemory`, followed by `--requirepass auth` exactly when `auth`
is not empty; what happens next is what that call answers: on an error `Start`
returns it in the world the call left, otherwise the readiness loop starts in
that world.  The two paths are `filepath.Join(d, "redis.pid")` and
`filepath.Join(d, "redis.log")`. -/
theorem Start_launch_arguments {σ Container : Type} (C : Collab σ)
    (s : redisService Container) (w w1 w2 w3 : σ) (p : Int) (ps : List Int) (d : String)
    (h1 : C.CheckExecutable ["redis-server", "redis-cli"] w = (none, w1))
    (h2 : C.BookPorts 1 w1 = ((p :: ps, none), w2))
    (h3 : C.TempDir "" "redis-test" w2 = ((d, none), w3)) :
    ∃ args,
      args = [Arg.str "--daemonize", Arg.str "yes", Arg.str "--port", Arg.int p,
          Arg.str "--pidfile", Arg.str (C.Join d "redis.pid"),
          Arg.str "--logfile", Arg.str (C.Join d "redis.log"),
          Arg.str "--dir", Arg.str d, Arg.str "--maxmemory", Arg.str s.maxMemory]
        ++ (if s.auth ≠ "" then [Arg.str "--requirepass", Arg.str s.auth] else []) ∧
      (Start C s w).trace.take 4 =
        [Event.checkExecutable ["redis-server", "redis-cli"] none,
          Event.bookPorts 1 (p :: ps) none,
          Event.tempDir "" "redis-test" d none,
          Event.exec d "redis-server" args (C.Exec d "redis-server" args w3).1] ∧
      (Start C s w).trace.filter Event.isExec
        = [Event.exec d "redis-server" args (C.Exec d "redis-server" args w3).1] ∧
      (∀ e, (C.Exec d "redis-server" args w3).1 = some e →
        (Start C s w).out
            = Outcome.ret ("", some ("fail to start redis server, err:" ++ e)) ∧
          (Start C s w).world = (C.Exec d "redis-server" args w3).2 ∧
          (Start C s w).trace.length = 4) ∧
      ((C.Exec d "redis-server" args w3).1 = none →
        ((∀ i, i < redisChkTimes →
            probeAnswer C p i (C.Exec d "redis-server" args w3).2 = false) ∧
          (Start C s w).out = Outcome.ret ("", some "fail to start redis") ∧
          (Start C s w).world
            = probeWorld C p redisChkTimes (C.Exec d "redis-server" args w3).2) ∨
        (∃ k, k < redisChkTimes ∧
          (∀ i, i < k → probeAnswer C p i (C.Exec d "redis-server" args w3).2 = false) ∧
          probeAnswer C p k (C.Exec d "redis-server" args w3).2 = true ∧
          (Start C s w).out = Outcome.ret ("localhost:" ++ toString p, none) ∧
          (Start C s w).world
            = probeWorld C p (k + 1) (C.Exec d "redis-server" args w3).2)) ∧
      (s.auth = "secret" → args.drop 12 = [Arg.str "--requirepass", Arg.str "secret"]) ∧
      (s.auth = "" → args.drop 12 = []) := by
  have hargs := startCmds_eq C.Join s p d
  refine ⟨startCmds C.Join { s with port := p, workDir := d }, hargs, ?_⟩
  rcases h4 : C.Exec d "redis-server"
    (startCmds C.Join { s with port := p, workDir := d }) w3 with ⟨_ | e, w4⟩
  · have htail : ∀ e, (none : Option Error) = some e →
        (Start C s w).out
            = Outcome.ret ("", some ("fail to start redis server, err:" ++ e)) ∧
          (Start C s w).world = w4 ∧ (Start C s w).trace.length = 4 := by
      intro e he
      simp at he
    have hsecret : s.auth = "secret" →
        (startCmds C.Join { s with port := p, workDir := d }).drop 12
          = [Arg.str "--requirepass", Arg.str "secret"] := by
      intro ha
      rw [hargs, ha]
      simp
    have hnone : s.auth = "" →
        (startCmds C.Join { s with port := p, workDir := d }).drop 12 = [] := by
      intro ha
      rw [hargs, ha]
      simp
    rcases probeAnswer_cases C p redisChkTimes w4 with hall | ⟨k, hk, hlt, ht⟩
    · have hS := Start_timeout C s w w1 w2 w3 w4 p ps d h1 h2 h3 h4 hall
      refine ⟨?_, ?_, htail, fun _ => Or.inl ⟨hall, ?_, ?_⟩, hsecret, hnone⟩
      · rw [hS]
        rfl
      · rw [hS]
        simp only [List.filter_append,
          filter_isExec_poll _ (failedRounds_isPoll p redisChkTimes)]
        simp [Event.isExec]
      · rw [hS]
      · rw [hS]
    · have hS := Start_ready C s w w1 w2 w3 w4 p ps d k h1 h2 h3 h4 hk hlt ht
      refine ⟨?_, ?_, htail, fun _ => Or.inr ⟨k, hk, hlt, ht, ?_, ?_⟩, hsecret, hnone⟩
      · rw [hS]
        rfl
      · rw [hS]
        simp only [List.filter_append,
          filter_isExec_poll _ (rounds_isPoll p k _ (ready_isPoll p))]
        simp [Event.isExec]
      · rw [hS]
        rfl
      · rw [hS]
  · rw [Start_execFail C s w w1 w2 w3 w4 p ps d e h1 h2 h3 h4]
    refine ⟨rfl, by simp [Event.isExec], ?_, by simp, ?_, ?_⟩
    · intro e1 he1
      simp only [Option.some.injEq] at he1
      subst he1
      exact ⟨rfl, rfl, rfl⟩
    · intro ha
      rw [hargs, ha]
      simp
    · intro ha
      rw [hargs, ha]
      simp

/-- A run of C6: an instance with auth `secret`, port 7000 booked and scratch
directory `/tmp/redis-test1`; the launch succeeds and the third probe finds
the port listening. -/
theorem Start_launch_arguments_witness :
    ∃ args,
      args = [Arg.str "--daemonize", Arg.str "yes", Arg.str "--port", Arg.int 7000,
          Arg.str "--pidfile", Arg.str ((scripted goodScript).Join "/tmp/redis-test1" "redis.pid"),
          Arg.str "--logfile", Arg.str ((scripted goodScript).Join "/tmp/redis-test1" "redis.log"),
          Arg.str "--dir", Arg.str "/tmp/redis-test1", Arg.str "--maxmemory",
          Arg.str ({ newRedisService Nat with auth := "secret" } : redisService Nat).maxMemory]
        ++ (if ({ newRedisService Nat with auth := "secret" } : redisService Nat).auth ≠ ""
            then [Arg.str "--requirepass",
              Arg.str ({ newRedisService Nat with auth := "secret" } : redisService Nat).auth]
            else []) ∧
      (Start (scripted goodScript) { newRedisService Nat with auth := "secret" } 0).trace.take 4 =
        [Event.checkExecutable ["redis-server", "redis-cli"] none,
          Event.bookPorts 1 (7000 :: [7001]) none,
          Event.tempDir "" "redis-test" "/tmp/redis-test1" none,
          Event.exec "/tmp/redis-test1" "redis-server" args
            ((scripted goodScript).Exec "/tmp/redis-test1" "redis-server" args 0).1] ∧
      (Start (scripted goodScript) { newRedisService Nat with auth := "secret" } 0).trace.filter
          Event.isExec
        = [Event.exec "/tmp/redis-test1" "redis-server" args
            ((scripted goodScript).Exec "/tmp/redis-test1" "redis-server" args 0).1] ∧
      (∀ e, ((scripted goodScript).Exec "/tmp/redis-test1" "redis-server" args 0).1 = some e →
        (Start (scripted goodScript) { newRedisService Nat with auth := "secret" } 0).out
            = Outcome.ret ("", some ("fail to start redis server, err:" ++ e)) ∧
          (Start (scripted goodScript) { newRedisService Nat with auth := "secret" } 0).world
            = ((scripted goodScript).Exec "/tmp/redis-test1" "redis-server" args 0).2 ∧
          (Start (scripted goodScript)
            { newRedisService Nat with auth := "secret" } 0).trace.length = 4) ∧
      (((scripted goodScript).Exec "/tmp/redis-test1" "redis-server" args 0).1 = none →
        ((∀ i, i < redisChkTimes →
            probeAnswer (scripted goodScript) 7000 i
              ((scripted goodScript).Exec "/tmp/redis-test1" "redis-server" args 0).2 = false) ∧
          (Start (scripted goodScript) { newRedisService Nat with auth := "secret" } 0).out
            = Outcome.ret ("", some "fail to start redis") ∧
          (Start (scripted goodScript) { newRedisService Nat with auth := "secret" } 0).world
            = probeWorld (scripted goodScript) 7000 redisChkTimes
              ((scripted goodScript).Exec "/tmp/redis-test1" "redis-server" args 0).2) ∨
        (∃ k, k < redisChkTimes ∧
          (∀ i, i < k → probeAnswer (scripted goodScript) 7000 i
            ((scripted goodScript).Exec "/tmp/redis-test1" "redis-server" args 0).2 = false) ∧
          probeAnswer (scripted goodScript) 7000 k
            ((scripted goodScript).Exec "/tmp/redis-test1" "redis-server" args 0).2 = true ∧
          (Start (scripted goodScript) { newRedisService Nat with auth := "secret" } 0).out
            = Outcome.ret ("localhost:" ++ toString (7000 : Int), none) ∧
          (Start (scripted goodScript) { newRedisService Nat with auth := "secret" } 0).world
            = probeWorld (scripted goodScript) 7000 (k + 1)
              ((scripted goodScript).Exec "/tmp/redis-test1" "redis-server" args 0).2)) ∧
      (({ newRedisService Nat with auth := "secret" } : redisService Nat).auth = "secret" →
        args.drop 12 = [Arg.str "--requirepass", Arg.str "secret"]) ∧
      (({ newRedisService Nat with auth := "secret" } : redisService Nat).auth = "" →
        args.drop 12 = []) :=
  Start_launch_arguments (scripted goodScript) { newRedisService Nat with auth := "secret" }
    0 0 0 0 7000 [7001] "/tmp/redis-test1" rfl rfl rfl

/-- What `StartDocker` does, in terms of its one `StartContainer` call. -/
theorem StartDocker_eq {σ Client Container : Type} (B : DockerBackend σ Client Container)
    (s : redisService Container) (cl : Client) (w : σ) :
    ∃ opts,
      opts = [ContainerOption.SetImage "redis:3-alpine",
        ContainerOption.SetExposedPorts [toString s.port ++ "/tcp"],
        ContainerOption.SetCommand
          (["redis-server", "--port", toString s.port, "--maxmemory", s.maxMemory,
              "--maxmemory-policy", "allkeys-lru"]
            ++ (if s.auth ≠ "" then ["--requirepass", s.auth] else []))] ∧
      StartDocker B s cl w =
        ⟨((B.StartContainer cl opts w).1.2.1, (B.StartContainer cl opts w).1.2.2),
          { s with container := (B.StartContainer cl opts w).1.1 },
          (B.StartContainer cl opts w).2,
          [DockerCall.startContainer cl opts (B.StartContainer cl opts w).1.1
            (B.StartContainer cl opts w).1.2.1 (B.StartContainer cl opts w).1.2.2]⟩ := by
  refine ⟨_, rfl, ?_⟩
  have hopts : (if s.auth ≠ "" then
        ["redis-server", "--port", fmtD s.port, "--maxmemory", s.maxMemory,
          "--maxmemory-policy", "allkeys-lru"] ++ ["--requirepass", s.auth]
      else ["redis-server", "--port", fmtD s.port, "--maxmemory", s.maxMemory,
        "--maxmemory-policy", "allkeys-lru"])
      = ["redis-server", "--port", toString s.port, "--maxmemory", s.maxMemory,
          "--maxmemory-policy", "allkeys-lru"]
        ++ (if s.auth ≠ "" then ["--requirepass", s.auth] else []) := by
    by_cases ha : s.auth = "" <;> simp [ha, fmtD]
  unfold StartDocker
  simp only [hopts]
  rfl

/-- C7: `StartDocker` makes exactly one collaborator call: `StartContainer`
applied to the client and to the options `SetImage("redis:3-alpine")`,
`SetExposedPorts([decimal(p) ++ "/tcp"])` and `SetCommand` of
`redis-server --port decimal(p) --maxmemory m --maxmemory-policy allkeys-lru`,
followed by `--requirepass a` exactly when `a` is not empty; it returns the
endpoint and the error of that call, keeps its container handle and leaves the
world that call left.  In particular, after `RedisMemory("128mb")` the command
passed contains `--maxmemory 128mb` and `--maxmemory-policy allkeys-lru`. -/
theorem StartDocker_command {σ Client Container Other : Type}
    (fmtV : Service Container Other → String) (B : DockerBackend σ Client Container)
    (s : redisService Container) (cl : Client) (w : σ) :
    (∃ opts,
      opts = [ContainerOption.SetImage "redis:3-alpine",
        ContainerOption.SetExposedPorts [toString s.port ++ "/tcp"],
        ContainerOption.SetCommand
          (["redis-server", "--port", toString s.port, "--maxmemory", s.maxMemory,
              "--maxmemory-policy", "allkeys-lru"]
            ++ (if s.auth ≠ "" then ["--requirepass", s.auth] else []))] ∧
      (StartDocker B s cl w).calls =
        [DockerCall.startContainer cl opts (B.StartContainer cl opts w).1.1
          (B.StartContainer cl opts w).1.2.1 (B.StartContainer cl opts w).1.2.2] ∧
      (StartDocker B s cl w).out
        = ((B.StartContainer cl opts w).1.2.1, (B.StartContainer cl opts w).1.2.2) ∧
      (StartDocker B s cl w).svc = { s with container := (B.StartContainer cl opts w).1.1 } ∧
      (StartDocker B s cl w).world = (B.StartContainer cl opts w).2) ∧
    (∃ s1 cmd opts,
      (RedisMemory fmtV "128mb" (Service.redis s)).svc = Service.redis s1 ∧
      opts = [ContainerOption.SetImage "redis:3-alpine",
        ContainerOption.SetExposedPorts [toString s.port ++ "/tcp"],
        ContainerOption.SetCommand cmd] ∧
      (StartDocker B s1 cl w).calls =
        [DockerCall.startContainer cl opts (B.StartContainer cl opts w).1.1
          (B.StartContainer cl opts w).1.2.1 (B.StartContainer cl opts w).1.2.2] ∧
      (StartDocker B s1 cl w).out
        = ((B.StartContainer cl opts w).1.2.1, (B.StartContainer cl opts w).1.2.2) ∧
      (StartDocker B s1 cl w).world = (B.StartContainer cl opts w).2 ∧
      ["--maxmemory", "128mb"] <:+: cmd ∧
      ["--maxmemory-policy", "allkeys-lru"] <:+: cmd) := by
  constructor
  · obtain ⟨opts, hopts, hrun⟩ := StartDocker_eq B s cl w
    refine ⟨opts, hopts, ?_, ?_, ?_, ?_⟩ <;> rw [hrun]
  · obtain ⟨opts, hopts, hrun⟩ := StartDocker_eq B { s with maxMemory := "128mb" } cl w
    refine ⟨{ s with maxMemory := "128mb" }, _, opts, rfl, hopts, ?_, ?_, ?_, ?_, ?_⟩
    · rw [hrun]
    · rw [hrun]
    · rw [hrun]
    · exact ⟨["redis-server", "--port", toString s.port],
        "--maxmemory-policy" :: "allkeys-lru"
          :: (if s.auth ≠ "" then ["--requirepass", s.auth] else []), by simp⟩
    · exact ⟨["redis-server", "--port", toString s.port, "--maxmemory", "128mb"],
        (if s.auth ≠ "" then ["--requirepass", s.auth] else []), by simp⟩

/-- C8, as stated, fails: on a fresh instance (no container handle) and a
backend whose `RemoveContainer` answers nil, `StopDocker` returns nil. -/
theorem StopDocker_without_handle_may_succeed :
    (newRedisService Nat).container = none ∧
      (StopDocker (scriptedBackend 1 none) (newRedisService Nat) () ()).out = none := by
  exact ⟨rfl, rfl⟩

/-- C8, amended: on an instance whose container handle is absent,
`StopDocker` makes one `RemoveContainer` call, with the nil handle, and
returns what that call answers: it returns an error exactly when
`RemoveContainer` does. -/
theorem StopDocker_nil_handle {σ Client Container : Type}
    (B : DockerBackend σ Client Container) (s : redisService Container) (cl : Client) (w : σ)
    (h : s.container = none) :
    (StopDocker B s cl w).out = (B.RemoveContainer cl none w).1 ∧
      (StopDocker B s cl w).calls
        = [DockerCall.removeContainer cl none (B.RemoveContainer cl none w).1] ∧
      (StopDocker B s cl w).svc = s := by
  rcases hr : B.RemoveContainer cl none w with ⟨e, w1⟩
  simp only [StopDocker, h, hr]
  exact ⟨trivial, trivial, trivial⟩

/-- A run of the amended C8: the backend refuses the nil handle, and
`StopDocker` returns that error. -/
theorem StopDocker_nil_handle_witness :
    (StopDocker (scriptedBackend 1 (some "no such container")) (newRedisService Nat) () ()).out
        = ((scriptedBackend 1 (some "no such container")).RemoveContainer () none ()).1 ∧
      (StopDocker (scriptedBackend 1 (some "no such container")) (newRedisService Nat) () ()).calls
        = [DockerCall.removeContainer () none
            ((scriptedBackend 1 (some "no such container")).RemoveContainer () none ()).1] ∧
      (StopDocker (scriptedBackend 1 (some "no such container")) (newRedisService Nat) () ()).svc
        = newRedisService Nat :=
  StopDocker_nil_handle (scriptedBackend 1 (some "no such container")) (newRedisService Nat)
    () () rfl

/-- C9: on a `*redisService` instance, `RedisMemory(m)` returns nil and sets
only `maxMemory`, `RedisPort(p)` returns nil and sets only `port`, and
`RedisAuth(a)` returns nil and sets only `auth`; every other field keeps its
value.  The options are functions of the service value alone: they are given
no collaborator and no world to act on. -/
theorem options_set_one_field {Container Other : Type}
    (fmtV : Service Container Other → String) (rs : redisService Container)
    (m : String) (p : Int) (a : String) :
    (∃ s1, RedisMemory fmtV m (Service.redis rs) = ⟨Outcome.ret none, Service.redis s1⟩ ∧
        s1.maxMemory = m ∧ s1.port = rs.port ∧ s1.workDir = rs.workDir ∧
        s1.auth = rs.auth ∧ s1.container = rs.container) ∧
      (∃ s1, RedisPort fmtV p (Service.redis rs) = ⟨Outcome.ret none, Service.redis s1⟩ ∧
        s1.port = p ∧ s1.maxMemory = rs.maxMemory ∧ s1.workDir = rs.workDir ∧
        s1.auth = rs.auth ∧ s1.container = rs.container) ∧
      (∃ s1, RedisAuth fmtV a (Service.redis rs) = ⟨Outcome.ret none, Service.redis s1⟩ ∧
        s1.auth = a ∧ s1.port = rs.port ∧ s1.workDir = rs.workDir ∧
        s1.maxMemory = rs.maxMemory ∧ s1.container = rs.container) :=
  ⟨⟨_, rfl, rfl, rfl, rfl, rfl, rfl⟩, ⟨_, rfl, rfl, rfl, rfl, rfl, rfl⟩,
    ⟨_, rfl, rfl, rfl, rfl, rfl, rfl⟩⟩

/-- C10: if `BookPorts(1)` never returns an empty list without an error, then
`Start` returns (it does not panic on `ports[0]`); it returns success exactly
when `CheckExecutable`, `BookPorts`, the temp-directory creation and the
launch of redis-server, each called in the world the previous one left,
return no error and `CheckListening` answers true in one of the first ten
rounds of the readiness loop; otherwise it returns an error with an empty
endpoint; `CheckExecutable`, `BookPorts`, the temp-directory creation and
`Exec` are each called at most once; and on each path the world that `Start`
leaves and the calls it made are exactly those of that path. -/
theorem Start_success_iff {σ Container : Type} (C : Collab σ)
    (s : redisService Container) (w : σ)
    (hbook : ∀ v ports v1, C.BookPorts 1 v = ((ports, none), v1) → ports ≠ []) :
    (∃ ep err, (Start C s w).out = Outcome.ret (ep, err)) ∧
      ((∃ ep, (Start C s w).out = Outcome.ret (ep, none)) ↔
        ∃ w1 p ps w2 d w3 w4 i,
          C.CheckExecutable ["redis-server", "redis-cli"] w = (none, w1) ∧
          C.BookPorts 1 w1 = ((p :: ps, none), w2) ∧
          C.TempDir "" "redis-test" w2 = ((d, none), w3) ∧
          C.Exec d "redis-server" (startCmds C.Join { s with port := p, workDir := d }) w3
            = (none, w4) ∧
          i < 10 ∧
          (C.CheckListening p (C.Sleep redisChkDelay (probeWorld C p i w4))).1 = true) ∧
      ((¬ ∃ ep, (Start C s w).out = Outcome.ret (ep, none)) →
        ∃ e, (Start C s w).out = Outcome.ret ("", some e)) ∧
      (Start C s w).trace.countP Event.isCheckExecutable ≤ 1 ∧
      (Start C s w).trace.countP Event.isBookPorts ≤ 1 ∧
      (Start C s w).trace.countP Event.isTempDir ≤ 1 ∧
      (Start C s w).trace.countP Event.isExec ≤ 1 ∧
      (∀ e w1, C.CheckExecutable ["redis-server", "redis-cli"] w = (some e, w1) →
        Start C s w = ⟨Outcome.ret ("", some e), s, w1,
          [Event.checkExecutable ["redis-server", "redis-cli"] (some e)]⟩) ∧
      (∀ w1 ports e w2, C.CheckExecutable ["redis-server", "redis-cli"] w = (none, w1) →
        C.BookPorts 1 w1 = ((ports, some e), w2) →
        Start C s w = ⟨Outcome.ret ("", some ("fail to book ports, err:" ++ e)), s, w2,
          [Event.checkExecutable ["redis-server", "redis-cli"] none,
            Event.bookPorts 1 ports (some e)]⟩) ∧
      (∀ w1 p ps w2 d e w3, C.CheckExecutable ["redis-server", "redis-cli"] w = (none, w1) →
        C.BookPorts 1 w1 = ((p :: ps, none), w2) →
        C.TempDir "" "redis-test" w2 = ((d, some e), w3) →
        Start C s w = ⟨Outcome.ret ("", some ("fail to prepare tmp dir, err:" ++ e)),
          { s with port := p, workDir := d }, w3,
          [Event.checkExecutable ["redis-server", "redis-cli"] none,
            Event.bookPorts 1 (p :: ps) none,
            Event.tempDir "" "redis-test" d (some e)]⟩) ∧
      (∀ w1 p ps w2 d w3 e w4, C.CheckExecutable ["redis-server", "redis-cli"] w = (none, w1) →
        C.BookPorts 1 w1 = ((p :: ps, none), w2) →
        C.TempDir "" "redis-test" w2 = ((d, none), w3) →
        C.Exec d "redis-server" (startCmds C.Join { s with port := p, workDir := d }) w3
          = (some e, w4) →
        Start C s w = ⟨Outcome.ret ("", some ("fail to start redis server, err:" ++ e)),
          { s with port := p, workDir := d }, w4,
          [Event.checkExecutable ["redis-server", "redis-cli"] none,
            Event.bookPorts 1 (p :: ps) none,
            Event.tempDir "" "redis-test" d none,
            Event.exec d "redis-server"
              (startCmds C.Join { s with port := p, workDir := d }) (some e)]⟩) ∧
      (∀ w1 p ps w2 d w3 w4, C.CheckExecutable ["redis-server", "redis-cli"] w = (none, w1) →
        C.BookPorts 1 w1 = ((p :: ps, none), w2) →
        C.TempDir "" "redis-test" w2 = ((d, none), w3) →
        C.Exec d "redis-server" (startCmds C.Join { s with port := p, workDir := d }) w3
          = (none, w4) →
        (∀ i, i < 10 →
          (C.CheckListening p (C.Sleep redisChkDelay (probeWorld C p i w4))).1 = false) →
        Start C s w = ⟨Outcome.ret ("", some "fail to start redis"),
          { s with port := p, workDir := d }, probeWorld C p 10 w4,
          [Event.checkExecutable ["redis-server", "redis-cli"] none,
            Event.bookPorts 1 (p :: ps) none,
            Event.tempDir "" "redis-test" d none,
            Event.exec d "redis-server"
              (startCmds C.Join { s with port := p, workDir := d }) none]
            ++ failedRounds p 10⟩) ∧
      (∀ w1 p ps w2 d w3 w4 k, C.CheckExecutable ["redis-server", "redis-cli"] w = (none, w1) →
        C.BookPorts 1 w1 = ((p :: ps, none), w2) →
        C.TempDir "" "redis-test" w2 = ((d, none), w3) →
        C.Exec d "redis-server" (startCmds C.Join { s with port := p, workDir := d }) w3
          = (none, w4) →
        k < 10 →
        (∀ i, i < k →
          (C.CheckListening p (C.Sleep redisChkDelay (probeWorld C p i w4))).1 = false) →
        (C.CheckListening p (C.Sleep redisChkDelay (probeWorld C p k w4))).1 = true →
        Start C s w = ⟨Outcome.ret ("localhost:" ++ toString p, none),
          { s with port := p, workDir := d }, probeWorld C p (k + 1) w4,
          [Event.checkExecutable ["redis-server", "redis-cli"] none,
            Event.bookPorts 1 (p :: ps) none,
            Event.tempDir "" "redis-test" d none,
            Event.exec d "redis-server"
              (startCmds C.Join { s with port := p, workDir := d }) none]
            ++ (failedRounds p k
              ++ [Event.sleep redisChkDelay, Event.checkListening p true])⟩) := by
  have hpaths :
      (∀ e w1, C.CheckExecutable ["redis-server", "redis-cli"] w = (some e, w1) →
        Start C s w = ⟨Outcome.ret ("", some e), s, w1,
          [Event.checkExecutable ["redis-server", "redis-cli"] (some e)]⟩) ∧
      (∀ w1 ports e w2, C.CheckExecutable ["redis-server", "redis-cli"] w = (none, w1) →
        C.BookPorts 1 w1 = ((ports, some e), w2) →
        Start C s w = ⟨Outcome.ret ("", some ("fail to book ports, err:" ++ e)), s, w2,
          [Event.checkExecutable ["redis-server", "redis-cli"] none,
            Event.bookPorts 1 ports (some e)]⟩) ∧
      (∀ w1 p ps w2 d e w3, C.CheckExecutable ["redis-server", "redis-cli"] w = (none, w1) →
        C.BookPorts 1 w1 = ((p :: ps, none), w2) →
        C.TempDir "" "redis-test" w2 = ((d, some e), w3) →
        Start C s w = ⟨Outcome.ret ("", some ("fail to prepare tmp dir, err:" ++ e)),
          { s with port := p, workDir := d }, w3,
          [Event.checkExecutable ["redis-server", "redis-cli"] none,
            Event.bookPorts 1 (p :: ps) none,
            Event.tempDir "" "redis-test" d (some e)]⟩) ∧
      (∀ w1 p ps w2 d w3 e w4, C.CheckExecutable ["redis-server", "redis-cli"] w = (none, w1) →
        C.BookPorts 1 w1 = ((p :: ps, none), w2) →
        C.TempDir "" "redis-test" w2 = ((d, none), w3) →
        C.Exec d "redis-server" (startCmds C.Join { s with port := p, workDir := d }) w3
          = (some e, w4) →
        Start C s w = ⟨Outcome.ret ("", some ("fail to start redis server, err:" ++ e)),
          { s with port := p, workDir := d }, w4,
          [Event.checkExecutable ["redis-server", "redis-cli"] none,
            Event.bookPorts 1 (p :: ps) none,
            Event.tempDir "" "redis-test" d none,
            Event.exec d "redis-server"
              (startCmds C.Join { s with port := p, workDir := d }) (some e)]⟩) ∧
      (∀ w1 p ps w2 d w3 w4, C.CheckExecutable ["redis-server", "redis-cli"] w = (none, w1) →
        C.BookPorts 1 w1 = ((p :: ps, none), w2) →
        C.TempDir "" "redis-test" w2 = ((d, none), w3) →
        C.Exec d "redis-server" (startCmds C.Join { s with port := p, workDir := d }) w3
          = (none, w4) →
        (∀ i, i < 10 →
          (C.CheckListening p (C.Sleep redisChkDelay (probeWorld C p i w4))).1 = false) →
        Start C s w = ⟨Outcome.ret ("", some "fail to start redis"),
          { s with port := p, workDir := d }, probeWorld C p 10 w4,
          [Event.checkExecutable ["redis-server", "redis-cli"] none,
            Event.bookPorts 1 (p :: ps) none,
            Event.tempDir "" "redis-test" d none,
            Event.exec d "redis-server"
              (startCmds C.Join { s with port := p, workDir := d }) none]
            ++ failedRounds p 10⟩) ∧
      (∀ w1 p ps w2 d w3 w4 k, C.CheckExecutable ["redis-server", "redis-cli"] w = (none, w1) →
        C.BookPorts 1 w1 = ((p :: ps, none), w2) →
        C.TempDir "" "redis-test" w2 = ((d, none), w3) →
        C.Exec d "redis-server" (startCmds C.Join { s with port := p, workDir := d }) w3
          = (none, w4) →
        k < 10 →
        (∀ i, i < k →
          (C.CheckListening p (C.Sleep redisChkDelay (probeWorld C p i w4))).1 = false) →
        (C.CheckListening p (C.Sleep redisChkDelay (probeWorld C p k w4))).1 = true →
        Start C s w = ⟨Outcome.ret ("localhost:" ++ toString p, none),
          { s with port := p, workDir := d }, probeWorld C p (k + 1) w4,
          [Event.checkExecutable ["redis-server", "redis-cli"] none,
            Event.bookPorts 1 (p :: ps) none,
            Event.tempDir "" "redis-test" d none,
            Event.exec d "redis-server"
              (startCmds C.Join { s with port := p, workDir := d }) none]
            ++ (failedRounds p k
              ++ [Event.sleep redisChkDelay, Event.checkListening p true])⟩) :=
    ⟨fun e w1 h1 => Start_checkFail C s w w1 e h1,
      fun w1 ports e w2 h1 h2 => Start_bookFail C s w w1 w2 ports e h1 h2,
      fun w1 p ps w2 d e w3 h1 h2 h3 => Start_tmpFail C s w w1 w2 w3 p ps d e h1 h2 h3,
      fun w1 p ps w2 d w3 e w4 h1 h2 h3 h4 =>
        Start_execFail C s w w1 w2 w3 w4 p ps d e h1 h2 h3 h4,
      fun w1 p ps w2 d w3 w4 h1 h2 h3 h4 hall =>
        Start_timeout C s w w1 w2 w3 w4 p ps d h1 h2 h3 h4 hall,
      fun w1 p ps w2 d w3 w4 k h1 h2 h3 h4 hk hlt ht =>
        Start_ready C s w w1 w2 w3 w4 p ps d k h1 h2 h3 h4 hk hlt ht⟩
  suffices hsum :
      (∃ ep err, (Start C s w).out = Outcome.ret (ep, err)) ∧
      ((∃ ep, (Start C s w).out = Outcome.ret (ep, none)) ↔
        ∃ w1 p ps w2 d w3 w4 i,
          C.CheckExecutable ["redis-server", "redis-cli"] w = (none, w1) ∧
          C.BookPorts 1 w1 = ((p :: ps, none), w2) ∧
          C.TempDir "" "redis-test" w2 = ((d, none), w3) ∧
          C.Exec d "redis-server" (startCmds C.Join { s with port := p, workDir := d }) w3
            = (none, w4) ∧
          i < 10 ∧
          (C.CheckListening p (C.Sleep redisChkDelay (probeWorld C p i w4))).1 = true) ∧
      ((¬ ∃ ep, (Start C s w).out = Outcome.ret (ep, none)) →
        ∃ e, (Start C s w).out = Outcome.ret ("", some e)) ∧
      (Start C s w).trace.countP Event.isCheckExecutable ≤ 1 ∧
      (Start C s w).trace.countP Event.isBookPorts ≤ 1 ∧
      (Start C s w).trace.countP Event.isTempDir ≤ 1 ∧
      (Start C s w).trace.countP Event.isExec ≤ 1 from
    ⟨hsum.1, hsum.2.1, hsum.2.2.1, hsum.2.2.2.1, hsum.2.2.2.2.1, hsum.2.2.2.2.2.1,
      hsum.2.2.2.2.2.2, hpaths⟩
  rcases h1 : C.CheckExecutable ["redis-server", "redis-cli"] w with ⟨_ | e, w1⟩
  swap
  · rw [Start_checkFail C s w w1 e h1]
    simp [Event.isCheckExecutable, Event.isBookPorts, Event.isTempDir, Event.isExec]
  rcases h2 : C.BookPorts 1 w1 with ⟨⟨ports, _ | e⟩, w2⟩
  swap
  · rw [Start_bookFail C s w w1 w2 ports e h1 h2]
    refine ⟨⟨_, _, rfl⟩, ?_, fun _ => ⟨_, rfl⟩, ?_⟩
    · constructor
      · rintro ⟨ep, hep⟩
        simp at hep
      · rintro ⟨v1, p, ps, v2, d, v3, v4, i, g1, g2, -⟩
        simp only [Prod.mk.injEq, true_and] at g1
        subst g1
        rw [h2] at g2
        simp at g2
    · simp [Event.isCheckExecutable, Event.isBookPorts, Event.isTempDir, Event.isExec]
  cases ports with
  | nil => exact absurd rfl (hbook w1 [] w2 h2)
  | cons p ps =>
    rcases h3 : C.TempDir "" "redis-test" w2 with ⟨⟨d, _ | e⟩, w3⟩
    swap
    · rw [Start_tmpFail C s w w1 w2 w3 p ps d e h1 h2 h3]
      refine ⟨⟨_, _, rfl⟩, ?_, fun _ => ⟨_, rfl⟩, ?_⟩
      · constructor
        · rintro ⟨ep, hep⟩
          simp at hep
        · rintro ⟨v1, q, qs, v2, d1, v3, v4, i, g1, g2, g3, -⟩
          simp only [Prod.mk.injEq, true_and] at g1
          subst g1
          rw [h2] at g2
          simp only [Prod.mk.injEq, List.cons.injEq, and_true] at g2
          obtain ⟨⟨gq, gqs⟩, gv⟩ := g2
          subst gq gqs gv
          rw [h3] at g3
          simp at g3
      · simp [Event.isCheckExecutable, Event.isBookPorts, Event.isTempDir, Event.isExec]
    rcases h4 : C.Exec d "redis-server"
      (startCmds C.Join { s with port := p, workDir := d }) w3 with ⟨_ | e, w4⟩
    swap
    · rw [Start_execFail C s w w1 w2 w3 w4 p ps d e h1 h2 h3 h4]
      refine ⟨⟨_, _, rfl⟩, ?_, fun _ => ⟨_, rfl⟩, ?_⟩
      · constructor
        · rintro ⟨ep, hep⟩
          simp at hep
        · rintro ⟨v1, q, qs, v2, d1, v3, v4, i, g1, g2, g3, g4, -⟩
          simp only [Prod.mk.injEq, true_and] at g1
          subst g1
          rw [h2] at g2
          simp only [Prod.mk.injEq, List.cons.injEq, and_true] at g2
          obtain ⟨⟨gq, gqs⟩, gv⟩ := g2
          subst gq gqs gv
          rw [h3] at g3
          simp only [Prod.mk.injEq, and_true] at g3
          obtain ⟨gd, gv3⟩ := g3
          subst gd gv3
          rw [h4] at g4
          simp at g4
      · simp [Event.isCheckExecutable, Event.isBookPorts, Event.isTempDir, Event.isExec]
    have hcounts : ∀ tr : List Event, (∀ ev ∈ tr, ev.isPoll = true) →
        ([Event.checkExecutable ["redis-server", "redis-cli"] none,
            Event.bookPorts 1 (p :: ps) none, Event.tempDir "" "redis-test" d none,
            Event.exec d "redis-server"
              (startCmds C.Join { s with port := p, workDir := d }) none]
            ++ tr).countP Event.isCheckExecutable ≤ 1 ∧
        ([Event.checkExecutable ["redis-server", "redis-cli"] none,
            Event.bookPorts 1 (p :: ps) none, Event.tempDir "" "redis-test" d none,
            Event.exec d "redis-server"
              (startCmds C.Join { s with port := p, workDir := d }) none]
            ++ tr).countP Event.isBookPorts ≤ 1 ∧
        ([Event.checkExecutable ["redis-server", "redis-cli"] none,
            Event.bookPorts 1 (p :: ps) none, Event.tempDir "" "redis-test" d none,
            Event.exec d "redis-server"
              (startCmds C.Join { s with port := p, workDir := d }) none]
            ++ tr).countP Event.isTempDir ≤ 1 ∧
        ([Event.checkExecutable ["redis-server", "redis-cli"] none,
            Event.bookPorts 1 (p :: ps) none, Event.tempDir "" "redis-test" d none,
            Event.exec d "redis-server"
              (startCmds C.Join { s with port := p, workDir := d }) none]
            ++ tr).countP Event.isExec ≤ 1 := by
      intro tr htr
      have hz := countP_poll_zero tr htr
      simp only [List.countP_append, hz.1, hz.2.1, hz.2.2.1, hz.2.2.2]
      simp [List.countP_cons, Event.isCheckExecutable, Event.isBookPorts,
        Event.isTempDir, Event.isExec]
    rcases probeAnswer_cases C p redisChkTimes w4 with hall | ⟨k, hk, hlt, ht⟩
    · rw [Start_timeout C s w w1 w2 w3 w4 p ps d h1 h2 h3 h4 hall]
      refine ⟨⟨_, _, rfl⟩, ?_, fun _ => ⟨_, rfl⟩,
        hcounts _ (failedRounds_isPoll p redisChkTimes)⟩
      constructor
      · rintro ⟨ep, hep⟩
        simp at hep
      · rintro ⟨v1, q, qs, v2, d1, v3, v4, i, g1, g2, g3, g4, gi, gt⟩
        simp only [Prod.mk.injEq, true_and] at g1
        subst g1
        rw [h2] at g2
        simp only [Prod.mk.injEq, List.cons.injEq, and_true] at g2
        obtain ⟨⟨gq, gqs⟩, gv⟩ := g2
        subst gq gqs gv
        rw [h3] at g3
        simp only [Prod.mk.injEq, and_true] at g3
        obtain ⟨gd, gv3⟩ := g3
        subst gd gv3
        rw [h4] at g4
        simp only [Prod.mk.injEq, true_and] at g4
        subst g4
        have := hall i gi
        unfold probeAnswer at this
        rw [this] at gt
        simp at gt
    · rw [Start_ready C s w w1 w2 w3 w4 p ps d k h1 h2 h3 h4 hk hlt ht]
      refine ⟨⟨_, _, rfl⟩, ?_, fun h => absurd ⟨_, rfl⟩ h,
        hcounts _ (rounds_isPoll p k _ (ready_isPoll p))⟩
      constructor
      · intro _
        exact ⟨w1, p, ps, w2, d, w3, w4, k, rfl, h2, h3, h4, hk, ht⟩
      · intro _
        exact ⟨_, rfl⟩

/-- A run of C10: the scripted collaborators never book an empty list; every
step succeeds and the third probe finds the port listening. -/
theorem Start_success_iff_witness :
    (∃ ep err, (Start (scripted goodScript) (newRedisService Nat) 0).out
        = Outcome.ret (ep, err)) ∧
      ((∃ ep, (Start (scripted goodScript) (newRedisService Nat) 0).out
          = Outcome.ret (ep, none)) ↔
        ∃ w1 p ps w2 d w3 w4 i,
          (scripted goodScript).CheckExecutable ["redis-server", "redis-cli"] 0 = (none, w1) ∧
          (scripted goodScript).BookPorts 1 w1 = ((p :: ps, none), w2) ∧
          (scripted goodScript).TempDir "" "redis-test" w2 = ((d, none), w3) ∧
          (scripted goodScript).Exec d "redis-server"
            (startCmds (scripted goodScript).Join
              { newRedisService Nat with port := p, workDir := d }) w3 = (none, w4) ∧
          i < 10 ∧
          ((scripted goodScript).CheckListening p
            ((scripted goodScript).Sleep redisChkDelay
              (probeWorld (scripted goodScript) p i w4))).1 = true) ∧
      ((¬ ∃ ep, (Start (scripted goodScript) (newRedisService Nat) 0).out
          = Outcome.ret (ep, none)) →
        ∃ e, (Start (scripted goodScript) (newRedisService Nat) 0).out
          = Outcome.ret ("", some e)) ∧
      (Start (scripted goodScript) (newRedisService Nat) 0).trace.countP
        Event.isCheckExecutable ≤ 1 ∧
      (Start (scripted goodScript) (newRedisService Nat) 0).trace.countP
        Event.isBookPorts ≤ 1 ∧
      (Start (scripted goodScript) (newRedisService Nat) 0).trace.countP
        Event.isTempDir ≤ 1 ∧
      (Start (scripted goodScript) (newRedisService Nat) 0).trace.countP
        Event.isExec ≤ 1 ∧
      Start (scripted goodScript) (newRedisService Nat) 0 =
        ⟨Outcome.ret ("localhost:" ++ toString (7000 : Int), none),
          { newRedisService Nat with port := 7000, workDir := "/tmp/redis-test1" },
          probeWorld (scripted goodScript) 7000 (2 + 1) 0,
          [Event.checkExecutable ["redis-server", "redis-cli"] none,
            Event.bookPorts 1 (7000 :: [7001]) none,
            Event.tempDir "" "redis-test" "/tmp/redis-test1" none,
            Event.exec "/tmp/redis-test1" "redis-server"
              (startCmds (scripted goodScript).Join
                { newRedisService Nat with port := 7000, workDir := "/tmp/redis-test1" }) none]
            ++ (failedRounds 7000 2
              ++ [Event.sleep redisChkDelay, Event.checkListening 7000 true])⟩ := by
  have h := Start_success_iff (scripted goodScript) (newRedisService Nat) 0
    (fun _ ports _ hb => by
      have hp : ports = [7000, 7001] := by
        simp only [scripted, goodScript, Prod.mk.injEq] at hb
        exact hb.1.1.symm
      rw [hp]
      simp)
  exact ⟨h.1, h.2.1, h.2.2.1, h.2.2.2.1, h.2.2.2.2.1, h.2.2.2.2.2.1, h.2.2.2.2.2.2.1,
    h.2.2.2.2.2.2.2.2.2.2.2.2 0 7000 [7001] 0 "/tmp/redis-test1" 0 0 2 rfl rfl rfl rfl
      (by decide) (by decide) (by decide)⟩

end RedisTest
